import Mathlib

/-! # cdnCheck: dataset translators and the `main` pipeline

A shallow embedding of `cmd/generate/transfer.go` (the three translators of
third-party fingerprint sources) and of `main.go` (`queryDomainInfo`,
`queryIPInfo`, `LoadResolvers`, `LoadCityMap`, `main`).

Conventions of the embedding.

* A Go `map[string]V` is a `GoMap V`: an association list without duplicate
  keys.  `lookup` is the Go index expression `m[k]` (with the `ok` flag as the
  `Option`), `insert` is the assignment `m[k] = v`, and the order of `entries`
  is the order in which one `range` loop happens to visit the map.  Go leaves
  that order unspecified, so every statement below quantifies over all
  `GoMap`s, hence over all iteration orders.
* A Go slice `[]T` is a `List T`; `append(s, x)` is `s ++ [x]`.  A nil slice
  and an empty slice are both `[]`.
* A decoded file is the value the decoder handed back; a failed decode is the
  `none` argument of a translator, and a Go `panic` is the result `none`.
-/

namespace CdnCheck

/-! ## Go maps -/

/-- A Go `map[string]V`. -/
abbrev GoMap (V : Type) : Type := AList (fun _ : String => V)

/-- The Go expression `m[k]` for a map of slices: the zero value (nil slice)
when the key is absent. -/
def GoMap.index (m : GoMap (List String)) (k : String) : List String :=
  (m.lookup k).getD []

/-- Number of patterns stored in a map of slices, summed over all keys. -/
def GoMap.total (m : GoMap (List String)) : Nat :=
  (m.entries.map (fun e => e.2.length)).sum

/-! ## The fingerprint dataset (package `cdncheck`) -/

/-- Modelled from the spec: the per-category part of `cdncheck.CDNData` for CDN
and WAF (the type declaration is not under src/): CNAME-suffix patterns and
CIDR ranges, each a map provider name -> list of strings. -/
structure Category where
  CNAME : GoMap (List String)
  IP : GoMap (List String)

/-- Modelled from the spec: the CLOUD part of `cdncheck.CDNData` (the type
declaration is not under src/): as `Category`, plus the credential patterns. -/
structure CloudCategory where
  CNAME : GoMap (List String)
  IP : GoMap (List String)
  KEYS : GoMap (List String)

/-- Modelled from the spec: `cdncheck.CDNData` (the type declaration is not
under src/): the three parallel categories. -/
structure CDNData where
  CDN : Category
  WAF : Category
  CLOUD : CloudCategory

/-- Modelled from the spec: `cdncheck.NewEmptyCDNData` (not under src/): the
dataset in which every pattern map is allocated and empty.  The translators
assign into these maps directly, which Go only allows on an allocated map. -/
def NewEmptyCDNData : CDNData :=
  { CDN := { CNAME := ∅, IP := ∅ }
    WAF := { CNAME := ∅, IP := ∅ }
    CLOUD := { CNAME := ∅, IP := ∅, KEYS := ∅ } }

/-- Modelled from the spec: `maputils.CopyMap` (not under src/): a fresh map
with the keys of `m`, each bound to a copy of its slice; written as the loop
`for k, v := range m { r[k] = append([]string{}, v...) }`. -/
def CopyMap (m : GoMap (List String)) : GoMap (List String) :=
  m.entries.foldl (fun r e => r.insert e.1 ([] ++ e.2)) ∅

/-! ## `cmd/generate/transfer.go` -/

/-- One value of the `naliCdnData` map of `TransferNaliCdnYaml`. -/
structure NaliEntry where
  Name : String
  Link : String

/-- The body of the `range yamlData` loop of `TransferNaliCdnYaml`:
`cdnData.CDN.CNAME[info.Name] = append(cdnData.CDN.CNAME[info.Name], domain)`. -/
def naliStep (cdnData : CDNData) (e : (_ : String) × NaliEntry) : CDNData :=
  { cdnData with
    CDN := { cdnData.CDN with
      CNAME := cdnData.CDN.CNAME.insert e.2.Name (cdnData.CDN.CNAME.index e.2.Name ++ [e.1]) } }

/-- `TransferNaliCdnYaml`, from the outcome of `fileutils.ReadYamlToStruct`:
`none` is a decoding error, on which the function panics. -/
def TransferNaliCdnYaml (yamlData : Option (GoMap NaliEntry)) : Option CDNData :=
  match yamlData with
  | none => none
  | some yamlData => some (yamlData.entries.foldl naliStep NewEmptyCDNData)

/-- The struct `PDCdnCheckData` of `TransferPDCdnCheckJson`. -/
structure PDCdnCheckData where
  CDN : GoMap (List String)
  WAF : GoMap (List String)
  Cloud : GoMap (List String)
  Common : GoMap (List String)

/-- The body of the `range pdCdnCheckData.Common` loop of
`TransferPDCdnCheckJson`:
`cdnData.CDN.CNAME[provider] = append([]string{}, cnames...)`. -/
def commonStep (cdnData : CDNData) (e : (_ : String) × List String) : CDNData :=
  { cdnData with
    CDN := { cdnData.CDN with CNAME := cdnData.CDN.CNAME.insert e.1 ([] ++ e.2) } }

/-- `TransferPDCdnCheckJson`, from the outcome of `fileutils.ReadJsonToStruct`:
`none` is a decoding error, on which the function panics. -/
def TransferPDCdnCheckJson (pdCdnCheckData : Option PDCdnCheckData) : Option CDNData :=
  match pdCdnCheckData with
  | none => none
  | some pdCdnCheckData =>
    let cdnData := NewEmptyCDNData
    let cdnData := { cdnData with CDN := { cdnData.CDN with IP := CopyMap pdCdnCheckData.CDN } }
    let cdnData := { cdnData with WAF := { cdnData.WAF with IP := CopyMap pdCdnCheckData.WAF } }
    let cdnData :=
      { cdnData with CLOUD := { cdnData.CLOUD with IP := CopyMap pdCdnCheckData.Cloud } }
    some (pdCdnCheckData.Common.entries.foldl commonStep cdnData)

/-- One value of the `cloudKeysYaml` map of `TransferCloudKeysYaml`. -/
structure CloudKeysEntry where
  Keys : List String

/-- The body of the `range cloudKeysYaml` loop of `TransferCloudKeysYaml`:
`cdnData.CLOUD.KEYS[cloudName] = yamEntry.Keys`. -/
def cloudKeysStep (cdnData : CDNData) (e : (_ : String) × CloudKeysEntry) : CDNData :=
  { cdnData with
    CLOUD := { cdnData.CLOUD with KEYS := cdnData.CLOUD.KEYS.insert e.1 e.2.Keys } }

/-- `TransferCloudKeysYaml`, from the outcome of `fileutils.ReadYamlToStruct`:
`none` is a decoding error, on which the function panics. -/
def TransferCloudKeysYaml (cloudKeysYaml : Option (GoMap CloudKeysEntry)) : Option CDNData :=
  match cloudKeysYaml with
  | none => none
  | some cloudKeysYaml => some (cloudKeysYaml.entries.foldl cloudKeysStep NewEmptyCDNData)

/-- Build a Go map from a literal list of bindings, as the decoder does: a later
binding of a key replaces an earlier one. -/
def GoMap.ofList {V : Type} (l : List (String × V)) : GoMap V :=
  l.foldl (fun m e => m.insert e.1 e.2) ∅

/-- The map part of `naliStep`. -/
def naliMapStep (r : GoMap (List String)) (e : (_ : String) × NaliEntry) : GoMap (List String) :=
  r.insert e.2.Name (r.index e.2.Name ++ [e.1])

/-! ## The dataset invariant of the spec -/

/-- The invariant for one pattern map: every provider name is non-empty and
fixed by the case normalization `norm`, and no pattern list holds `""`. -/
def PatternMapInvariant (norm : String → String) (m : GoMap (List String)) : Prop :=
  ∀ p ∈ m.keys, p ≠ "" ∧ norm p = p ∧ "" ∉ m.index p

/-- The invariant for a dataset: `PatternMapInvariant` for its seven maps. -/
def DatasetInvariant (norm : String → String) (d : CDNData) : Prop :=
  PatternMapInvariant norm d.CDN.CNAME ∧ PatternMapInvariant norm d.CDN.IP ∧
  PatternMapInvariant norm d.WAF.CNAME ∧ PatternMapInvariant norm d.WAF.IP ∧
  PatternMapInvariant norm d.CLOUD.CNAME ∧ PatternMapInvariant norm d.CLOUD.IP ∧
  PatternMapInvariant norm d.CLOUD.KEYS

/-- Source A input whose provider names are non-empty and normalized and whose
domains are non-empty. -/
def NaliClean (norm : String → String) (y : GoMap NaliEntry) : Prop :=
  ∀ e ∈ y.entries, e.1 ≠ "" ∧ e.2.Name ≠ "" ∧ norm e.2.Name = e.2.Name

/-- Source B input whose four maps satisfy the invariant themselves. -/
def PDClean (norm : String → String) (src : PDCdnCheckData) : Prop :=
  PatternMapInvariant norm src.CDN ∧ PatternMapInvariant norm src.WAF ∧
  PatternMapInvariant norm src.Cloud ∧ PatternMapInvariant norm src.Common

/-- Source C input whose provider names are non-empty and normalized and whose
key lists hold no empty string. -/
def CloudKeysClean (norm : String → String) (y : GoMap CloudKeysEntry) : Prop :=
  ∀ e ∈ y.entries, e.1 ≠ "" ∧ norm e.1 = e.1 ∧ "" ∉ e.2.Keys

instance (norm : String → String) (m : GoMap (List String)) :
    Decidable (PatternMapInvariant norm m) := by
  unfold PatternMapInvariant; infer_instance

instance (norm : String → String) (d : CDNData) : Decidable (DatasetInvariant norm d) := by
  unfold DatasetInvariant; infer_instance

instance (norm : String → String) (y : GoMap NaliEntry) : Decidable (NaliClean norm y) := by
  unfold NaliClean; infer_instance

instance (norm : String → String) (src : PDCdnCheckData) : Decidable (PDClean norm src) := by
  unfold PDClean; infer_instance

instance (norm : String → String) (y : GoMap CloudKeysEntry) :
    Decidable (CloudKeysClean norm y) := by
  unfold CloudKeysClean; infer_instance

/-! ## `main.go`: data -/

/-- The struct `Config` of `main.go`: the values of the command-line flags. -/
structure Config where
  Target : String
  ResolversFile : String
  ResolversNum : Int
  CityMapFile : String
  CityMapNum : Int
  DNSConcurrency : Int
  EDNSConcurrency : Int
  TimeOut : Int
  QueryEDNSCNAMES : Bool
  QueryEDNSUseSysNS : Bool
  AsnIpv4Db : String
  AsnIpv6Db : String
  Ipv4LocateDb : String
  Ipv6LocateDb : String
  SourceJson : String
  OutputFile : String
  OutputType : String
  OutputLevel : String
deriving DecidableEq

/-- Modelled from the spec: `classify.TargetEntry` (the type declaration is not
under src/), with the four fields `main.go` reads. -/
structure TargetEntry where
  RAW : String
  FMT : String
  IsIPv4 : Bool
  FromUrl : Bool
deriving DecidableEq

/-- The bucket a target is put in by the classifier. -/
inductive TargetKind where
  | ip
  | domain
  | invalid
deriving DecidableEq

/-- Modelled from the spec: the value `classify.ClassifyTargets` returns (the
type declaration is not under src/): the IP, domain and invalid buckets. -/
structure Classifier where
  IPEntries : List TargetEntry
  DomainEntries : List TargetEntry
  InvalidEntries : List TargetEntry
deriving DecidableEq

/-- Keep the entries of one kind, in input order. -/
def bucket (k : TargetKind) (classified : List (TargetKind × TargetEntry)) : List TargetEntry :=
  classified.filterMap (fun c => if c.1 = k then some c.2 else none)

/-- Modelled from the spec: `classify.ClassifyTargets` (not under src/), section
4.1: every target is assigned to exactly one bucket, and each bucket keeps the
relative input order.  The decision for one target string (`classifyOne`: its
bucket and its entry) is a parameter. -/
def ClassifyTargets (classifyOne : String → TargetKind × TargetEntry) (targets : List String) :
    Classifier :=
  { IPEntries := bucket .ip (targets.map classifyOne)
    DomainEntries := bucket .domain (targets.map classifyOne)
    InvalidEntries := bucket .invalid (targets.map classifyOne) }

/-- The struct `querydomain.DNSQueryConfig`, with the fields of the literal in
`main`.  `Timeout` is a `time.Duration`, a count of nanoseconds. -/
structure DNSQueryConfig where
  Resolvers : List String
  CityMap : List (GoMap String)
  Timeout : Int
  MaxDNSConcurrency : Int
  MaxEDNSConcurrency : Int
  QueryEDNSCNAMES : Bool
  QueryEDNSUseSysNS : Bool

/-- The struct `queryip.IpDbConfig`, with the fields of the literal in `main`. -/
structure IpDbConfig where
  AsnIpv4Db : String
  AsnIpv6Db : String
  Ipv4LocateDb : String
  Ipv6LocateDb : String
deriving DecidableEq

/-- Modelled from the spec: `models.CheckInfo` (the type declaration is not
under src/).  `main.go` names the six fields `A`, `AAAA`, `Ipv4Locate`,
`Ipv4Asn`, `Ipv6Locate`, `Ipv6Asn`; `rest` stands for every other field of the
record (identity, kind, CNAME chain). -/
structure CheckInfo (Loc Asn Rest : Type) where
  A : List String
  AAAA : List String
  Ipv4Locate : Loc
  Ipv4Asn : Asn
  Ipv6Locate : Loc
  Ipv6Asn : Asn
  rest : Rest
deriving DecidableEq

/-- The value `QueryIPInfo` returns on success, with the four fields
`queryIPInfo` reads. -/
structure IPInfo (Loc Asn : Type) where
  IPv4Locations : Loc
  IPv4AsnInfos : Asn
  IPv6Locations : Loc
  IPv6AsnInfos : Asn
deriving DecidableEq

/-- The value `main` hands to `fileutils.WriteOutputToFile` (an `interface{}`
in Go): one of the three output shapes. -/
inductive OutputData (CR Q D : Type) where
  | noCDNs (q : Q)
  | detail (d : D)
  | results (r : CR)
deriving DecidableEq

/-- The calls `main` makes to its collaborators, in the order they happen. -/
inductive Event where
  | parseFlags
  | writeHelp
  | loadTargets
  | classifyTargets
  | loadResolvers
  | loadCityMap
  | dnsProcess
  | initDBEngines
  | queryIPInfo
  | closeEngines
  | readSourceJson
  | checkCDNBatch
  | writeOutput
deriving DecidableEq

/-- What one run of `main` did: the collaborator calls in order, the exit
status of the process, and the arguments of `WriteOutputToFile` when it was
called. -/
structure Run (Out : Type) where
  trace : List Event
  exitCode : Nat
  output : Option (Out × String × String)

/-- The collaborators of `main.go` in one run: the packages `fileutils`,
`maputils`, `classify`, `querydomain`, `queryip`, `models`, `cdncheck`, the flag
parser and `strings.ToLower`.  None of them is under src/; each is a parameter.
`DR` is `querydomain.DNSResult`, `CR` the result of `CheckCDNBatch`, `Q` and `D`
the results of `GetNoCDNs` and `MergeCheckResultsToCheckInfos`, `Eng` the state
of the opened database engines. -/
structure World (DR Loc Asn Rest CR Q D Eng : Type) where
  Parse : Except String Config
  IsFileExists : String → Bool
  ReadTextToList : String → Except String (List String)
  ReadCSVToMap : String → Except String (List (GoMap String))
  PickRandList : List String → Int → List String
  PickRandMaps : List (GoMap String) → Int → List (GoMap String)
  classifyOne : String → TargetKind × TargetEntry
  Process : DNSQueryConfig → List TargetEntry → GoMap (Option DR)
  PopulateDNSResult : TargetEntry → DR → CheckInfo Loc Asn Rest
  NewDomainCheckInfo : String → String → Bool → CheckInfo Loc Asn Rest
  NewIPCheckInfo : String → String → Bool → Bool → CheckInfo Loc Asn Rest
  InitDBEngines : IpDbConfig → Except String Eng
  QueryIPInfo : Eng → List String → List String → Except String (IPInfo Loc Asn) × Eng
  ReadJsonToStruct : String → CDNData → Except String CDNData
  CheckCDNBatch : CDNData → List (CheckInfo Loc Asn Rest) → Except String CR
  GetNoCDNs : CR → Q
  MergeCheckResultsToCheckInfos : List (CheckInfo Loc Asn Rest) → CR → D
  ToLower : String → String

/-! ## Go standard library: `strings.Split`, `strings.TrimSpace` -/

/-- Split a character sequence at every `sep`: `n` separators give `n + 1`
pieces (`strings.Split` with a one-character separator). -/
def splitOnChar (sep : Char) : List Char → List (List Char)
  | [] => [[]]
  | c :: cs =>
    if c = sep then [] :: splitOnChar sep cs
    else
      match splitOnChar sep cs with
      | [] => [[c]]
      | piece :: pieces => (c :: piece) :: pieces

/-- `strings.Split(s, ",")`. -/
def Split (s : String) : List String :=
  (splitOnChar ',' s.data).map String.mk

/-- `unicode.IsSpace`: the code points with the Unicode White_Space property. -/
def isSpace (c : Char) : Bool :=
  let n := c.toNat
  n = 0x09 || n = 0x0A || n = 0x0B || n = 0x0C || n = 0x0D || n = 0x20 || n = 0x85 ||
  n = 0xA0 || n = 0x1680 || (0x2000 ≤ n && n ≤ 0x200A) || n = 0x2028 || n = 0x2029 ||
  n = 0x202F || n = 0x205F || n = 0x3000

/-- `strings.TrimSpace`. -/
def TrimSpace (s : String) : String :=
  String.mk ((s.data.dropWhile isSpace).reverse.dropWhile isSpace).reverse

/-- Reduce an integer to the range of a Go `int64` (two's complement wrap). -/
def wrapInt64 (x : Int) : Int :=
  (x + 2 ^ 63) % 2 ^ 64 - 2 ^ 63

/-! ## `main.go`: functions -/

section Pipeline

variable {DR Loc Asn Rest CR Q D Eng : Type}

/-- `LoadResolvers`. -/
def LoadResolvers (w : World DR Loc Asn Rest CR Q D Eng) (resolversFile : String)
    (resolversNum : Int) : Except String (List String) :=
  match w.ReadTextToList resolversFile with
  | .error err => .error err
  | .ok resolvers => .ok (w.PickRandList resolvers resolversNum)

/-- `LoadCityMap`. -/
def LoadCityMap (w : World DR Loc Asn Rest CR Q D Eng) (cityMapFile : String)
    (randCityNum : Int) : Except String (List (GoMap String)) :=
  match w.ReadCSVToMap cityMapFile with
  | .error err => .error err
  | .ok cityMap => .ok (w.PickRandMaps cityMap randCityNum)

/-- The body of the `range domainEntries` loop of `queryDomainInfo`: the record
for one domain entry, given the map `Process` returned. -/
def domainCheckInfo (w : World DR Loc Asn Rest CR Q D Eng) (dnsResult : GoMap (Option DR))
    (domainEntry : TargetEntry) : CheckInfo Loc Asn Rest :=
  match dnsResult.lookup domainEntry.FMT with
  | some (some result) => w.PopulateDNSResult domainEntry result
  | _ => w.NewDomainCheckInfo domainEntry.RAW domainEntry.FMT domainEntry.FromUrl

/-- `queryDomainInfo`. -/
def queryDomainInfo (w : World DR Loc Asn Rest CR Q D Eng) (dnsConfig : DNSQueryConfig)
    (domainEntries : List TargetEntry) : List (CheckInfo Loc Asn Rest) :=
  let dnsResult := w.Process dnsConfig domainEntries
  domainEntries.foldl
    (fun checkInfos domainEntry => checkInfos ++ [domainCheckInfo w dnsResult domainEntry]) []

/-- The assignments of the success branch of `queryIPInfo`. -/
def setIPInfo (checkInfo : CheckInfo Loc Asn Rest) (ipInfo : IPInfo Loc Asn) :
    CheckInfo Loc Asn Rest :=
  { checkInfo with
    Ipv4Locate := ipInfo.IPv4Locations
    Ipv4Asn := ipInfo.IPv4AsnInfos
    Ipv6Locate := ipInfo.IPv6Locations
    Ipv6Asn := ipInfo.IPv6AsnInfos }

/-- The body of the `range checkInfos` loop of `queryIPInfo`.  The state is the
list of records already visited and the state of the engines. -/
def ipInfoStep (w : World DR Loc Asn Rest CR Q D Eng) (st : List (CheckInfo Loc Asn Rest) × Eng)
    (checkInfo : CheckInfo Loc Asn Rest) : List (CheckInfo Loc Asn Rest) × Eng :=
  if checkInfo.A.length > 0 ∨ checkInfo.AAAA.length > 0 then
    match w.QueryIPInfo st.2 checkInfo.A checkInfo.AAAA with
    | (.error _, eng) => (st.1 ++ [checkInfo], eng)
    | (.ok ipInfo, eng) => (st.1 ++ [setIPInfo checkInfo ipInfo], eng)
  else (st.1 ++ [checkInfo], st.2)

/-- `queryIPInfo`; `none` is `os.Exit(1)` after a failed `InitDBEngines`.  The
Go function updates the records in place through their pointers and returns the
slice it was given; here the records are distinct values and the list is
rebuilt.  A lookup that returns a nil error returns a result with it. -/
def queryIPInfo (w : World DR Loc Asn Rest CR Q D Eng) (ipDbConfig : IpDbConfig)
    (checkInfos : List (CheckInfo Loc Asn Rest)) : Option (List (CheckInfo Loc Asn Rest)) :=
  match w.InitDBEngines ipDbConfig with
  | .error _ => none
  | .ok ipEngines => some (checkInfos.foldl (ipInfoStep w) ([], ipEngines)).1

/-- The target list of `main`: the lines of the file when `Target` is an
existing file, else the comma-separated items of `Target`, each trimmed. -/
def loadTargets (w : World DR Loc Asn Rest CR Q D Eng) (config : Config) :
    Except String (List String) :=
  if w.IsFileExists config.Target then w.ReadTextToList config.Target
  else .ok ((Split config.Target).map TrimSpace)

/-- The literal `dnsConfig` of `main`. -/
def mkDNSConfig (config : Config) (resolvers : List String) (randCities : List (GoMap String)) :
    DNSQueryConfig :=
  { Resolvers := resolvers
    CityMap := randCities
    Timeout := wrapInt64 (1000000000 * wrapInt64 config.TimeOut)
    MaxDNSConcurrency := config.DNSConcurrency
    MaxEDNSConcurrency := config.EDNSConcurrency
    QueryEDNSCNAMES := config.QueryEDNSCNAMES
    QueryEDNSUseSysNS := config.QueryEDNSUseSysNS }

/-- The literal `ipDbConfig` of `main`. -/
def mkIpDbConfig (config : Config) : IpDbConfig :=
  { AsnIpv4Db := config.AsnIpv4Db
    AsnIpv6Db := config.AsnIpv6Db
    Ipv4LocateDb := config.Ipv4LocateDb
    Ipv6LocateDb := config.Ipv6LocateDb }

/-- The record `main` builds for one IP entry. -/
def ipCheckInfo (w : World DR Loc Asn Rest CR Q D Eng) (ipEntries : TargetEntry) :
    CheckInfo Loc Asn Rest :=
  w.NewIPCheckInfo ipEntries.RAW ipEntries.FMT ipEntries.IsIPv4 ipEntries.FromUrl

/-- Lines 188-195 of `main`: the records of `queryDomainInfo`, then one record
appended per IP entry. -/
def mergedCheckInfos (w : World DR Loc Asn Rest CR Q D Eng) (dnsConfig : DNSQueryConfig)
    (classifier : Classifier) : List (CheckInfo Loc Asn Rest) :=
  let checkInfos := queryDomainInfo w dnsConfig classifier.DomainEntries
  classifier.IPEntries.foldl (fun checkInfos ipEntries => checkInfos ++ [ipCheckInfo w ipEntries])
    checkInfos

/-- The `switch strings.ToLower(config.OutputLevel)` of `main`. -/
def selectOutput (w : World DR Loc Asn Rest CR Q D Eng) (outputLevel : String)
    (checkInfos : List (CheckInfo Loc Asn Rest)) (checkResults : CR) : OutputData CR Q D :=
  if w.ToLower outputLevel = "quiet" then .noCDNs (w.GetNoCDNs checkResults)
  else if w.ToLower outputLevel = "detail" then
    .detail (w.MergeCheckResultsToCheckInfos checkInfos checkResults)
  else .results checkResults

/-- A run that ends in `os.Exit(1)` after the calls `trace`. -/
def exit1 {Out : Type} (trace : List Event) : Run Out :=
  { trace := trace, exitCode := 1, output := none }

/-- `main`. -/
def main (w : World DR Loc Asn Rest CR Q D Eng) : Run (OutputData CR Q D) :=
  match w.Parse with
  | .error _ => exit1 [.parseFlags]
  | .ok config =>
  if config.Target = "" then exit1 [.parseFlags, .writeHelp]
  else
  match loadTargets w config with
  | .error _ => exit1 [.parseFlags, .loadTargets]
  | .ok targets =>
  let classifier := ClassifyTargets w.classifyOne targets
  match LoadResolvers w config.ResolversFile config.ResolversNum with
  | .error _ => exit1 [.parseFlags, .loadTargets, .classifyTargets, .loadResolvers]
  | .ok resolvers =>
  match LoadCityMap w config.CityMapFile config.CityMapNum with
  | .error _ =>
    exit1 [.parseFlags, .loadTargets, .classifyTargets, .loadResolvers, .loadCityMap]
  | .ok randCities =>
  let dnsConfig := mkDNSConfig config resolvers randCities
  let checkInfos := mergedCheckInfos w dnsConfig classifier
  match queryIPInfo w (mkIpDbConfig config) checkInfos with
  | none =>
    exit1 [.parseFlags, .loadTargets, .classifyTargets, .loadResolvers, .loadCityMap,
      .dnsProcess, .initDBEngines]
  | some checkInfos =>
  match w.ReadJsonToStruct config.SourceJson NewEmptyCDNData with
  | .error _ =>
    exit1 [.parseFlags, .loadTargets, .classifyTargets, .loadResolvers, .loadCityMap,
      .dnsProcess, .initDBEngines, .queryIPInfo, .closeEngines, .readSourceJson]
  | .ok cdnData =>
  match w.CheckCDNBatch cdnData checkInfos with
  | .error _ =>
    exit1 [.parseFlags, .loadTargets, .classifyTargets, .loadResolvers, .loadCityMap,
      .dnsProcess, .initDBEngines, .queryIPInfo, .closeEngines, .readSourceJson,
      .checkCDNBatch]
  | .ok checkResults =>
    { trace := [.parseFlags, .loadTargets, .classifyTargets, .loadResolvers, .loadCityMap,
        .dnsProcess, .initDBEngines, .queryIPInfo, .closeEngines, .readSourceJson,
        .checkCDNBatch, .writeOutput]
      exitCode := 0
      output := some (selectOutput w config.OutputLevel checkInfos checkResults,
        config.OutputType, config.OutputFile) }

end Pipeline

/-! ## Statements about one run -/

section Statements

variable {DR Loc Asn Rest CR Q D Eng : Type}

/-- What the loop of `queryIPInfo` does with one record `c` when the engines are
in state `eng`: it leaves the record `c'` in its place and the engines in state
`eng'`.  A record without addresses is not looked up: the record is unchanged
and so is the state of the engines.  Otherwise exactly the lookup
`QueryIPInfo eng c.A c.AAAA` is made: the engines go to the state it returns, an
error leaves the record unchanged, and a success overwrites the four enrichment
fields with the result and nothing else. -/
def IPInfoRel (w : World DR Loc Asn Rest CR Q D Eng) (eng : Eng) (c c' : CheckInfo Loc Asn Rest)
    (eng' : Eng) : Prop :=
  (c.A = [] ∧ c.AAAA = [] → c' = c ∧ eng' = eng) ∧
  (¬ (c.A = [] ∧ c.AAAA = []) →
    eng' = (w.QueryIPInfo eng c.A c.AAAA).2 ∧
    match (w.QueryIPInfo eng c.A c.AAAA).1 with
    | .error _ => c' = c
    | .ok ipInfo =>
      c' = { c with
        Ipv4Locate := ipInfo.IPv4Locations
        Ipv4Asn := ipInfo.IPv4AsnInfos
        Ipv6Locate := ipInfo.IPv6Locations
        Ipv6Asn := ipInfo.IPv6AsnInfos })

/-- The record the merged list of `main` holds for the target string `t`,
`none` for a target the classifier rejects. -/
def targetRecord (w : World DR Loc Asn Rest CR Q D Eng) (dnsConfig : DNSQueryConfig)
    (targets : List String) (t : String) : Option (CheckInfo Loc Asn Rest) :=
  match (w.classifyOne t).1 with
  | .domain =>
    some (domainCheckInfo w
      (w.Process dnsConfig (ClassifyTargets w.classifyOne targets).DomainEntries)
      (w.classifyOne t).2)
  | .ip => some (ipCheckInfo w (w.classifyOne t).2)
  | .invalid => none

/-- The merged list keeps the input order of the targets: the record of an
earlier valid target comes before the record of a later valid target. -/
def PreservesTargetOrder (w : World DR Loc Asn Rest CR Q D Eng) (dnsConfig : DNSQueryConfig)
    (targets : List String) : Prop :=
  ∀ (i j : Nat) ti tj ri rj, i < j → targets[i]? = some ti → targets[j]? = some tj →
    targetRecord w dnsConfig targets ti = some ri →
    targetRecord w dnsConfig targets tj = some rj →
    List.Sublist [ri, rj] (mergedCheckInfos w dnsConfig (ClassifyTargets w.classifyOne targets))

/-- The database engines fail to open in this run: `InitDBEngines` returns an
error for the `ipDbConfig` that `main` builds from the parsed flags. -/
def DBInitFails (w : World DR Loc Asn Rest CR Q D Eng) : Prop :=
  ∃ config err, w.Parse = .ok config ∧ w.InitDBEngines (mkIpDbConfig config) = .error err

/-- The fingerprint dataset fails to load in this run: `ReadJsonToStruct`
returns an error for `config.SourceJson` and the empty dataset `main` passes. -/
def SourceLoadFails (w : World DR Loc Asn Rest CR Q D Eng) : Prop :=
  ∃ config err, w.Parse = .ok config ∧
    w.ReadJsonToStruct config.SourceJson NewEmptyCDNData = .error err

/-- The run ended with a non-zero status and without the DNS probing step. -/
def AbortsBeforeProbing (w : World DR Loc Asn Rest CR Q D Eng) : Prop :=
  (main w).exitCode ≠ 0 ∧ Event.dnsProcess ∉ (main w).trace

/-- The flags parsed, the target list was obtained, and the classifier found
neither an IP entry nor a domain entry in it. -/
def NoValidTargets (w : World DR Loc Asn Rest CR Q D Eng) : Prop :=
  ∃ config targets, w.Parse = .ok config ∧ loadTargets w config = .ok targets ∧
    (ClassifyTargets w.classifyOne targets).IPEntries = [] ∧
    (ClassifyTargets w.classifyOne targets).DomainEntries = []

/-- The run ended with a non-zero status before the resolvers were loaded and
before DNS probing, IP enrichment and classification. -/
def AbortsBeforeResolvers (w : World DR Loc Asn Rest CR Q D Eng) : Prop :=
  (main w).exitCode ≠ 0 ∧ Event.loadResolvers ∉ (main w).trace ∧
  Event.dnsProcess ∉ (main w).trace ∧ Event.queryIPInfo ∉ (main w).trace ∧
  Event.checkCDNBatch ∉ (main w).trace

end Statements

/-! ## A concrete run -/

/-- Decimal value of a sequence of digits. -/
def digitsValue (p : List Char) : Nat :=
  p.foldl (fun n c => 10 * n + (c.toNat - 48)) 0

/-- A dotted quad: four non-empty groups of at most three decimal digits, each
at most 255. -/
def isIPv4Literal (s : String) : Bool :=
  let parts := splitOnChar '.' s.data
  parts.length == 4 &&
    parts.all (fun p => !p.isEmpty && p.length ≤ 3 && p.all Char.isDigit && digitsValue p ≤ 255)

/-- A per-target decision for the concrete run: the empty string is invalid, a
dotted quad is an IP entry, anything else is a domain entry. -/
def demoClassifyOne (raw : String) : TargetKind × TargetEntry :=
  if raw = "" then (.invalid, { RAW := raw, FMT := raw, IsIPv4 := false, FromUrl := false })
  else if isIPv4Literal raw then
    (.ip, { RAW := raw, FMT := raw, IsIPv4 := true, FromUrl := false })
  else (.domain, { RAW := raw, FMT := raw, IsIPv4 := false, FromUrl := false })

/-- The flag values of a run with `-t target` and, optionally, `-l level`; every
other flag has the default of its struct tag. -/
def demoConfig (target level : String) : Config :=
  { Target := target
    ResolversFile := "asset/resolvers.txt"
    ResolversNum := 5
    CityMapFile := "asset/city_ip.csv"
    CityMapNum := 5
    DNSConcurrency := 5
    EDNSConcurrency := 5
    TimeOut := 5
    QueryEDNSCNAMES := false
    QueryEDNSUseSysNS := false
    AsnIpv4Db := "asset/geolite2-asn-ipv4.mmdb"
    AsnIpv6Db := "asset/geolite2-asn-ipv6.mmdb"
    Ipv4LocateDb := "asset/qqwry.dat"
    Ipv6LocateDb := "asset/zxipv6wry.db"
    SourceJson := "asset/source.json"
    OutputFile := ""
    OutputType := "sys"
    OutputLevel := level }

/-- Collaborators of a concrete run: no file is named by the target argument,
the resolver and city files load, no domain resolves, the database engines open
when `dbOk`, `source.json` loads when `sourceOk`, every lookup finds the same
location and ASN, and the record types keep the entry as identity. -/
def demoWorld (target level : String) (dbOk sourceOk : Bool) :
    World (List String) String String TargetEntry (List String) (List String) (List String) Unit :=
  { Parse := .ok (demoConfig target level)
    IsFileExists := fun _ => false
    ReadTextToList := fun _ => .ok ["192.0.2.53"]
    ReadCSVToMap := fun _ => .ok []
    PickRandList := fun l _ => l
    PickRandMaps := fun l _ => l
    classifyOne := demoClassifyOne
    Process := fun _ _ => ∅
    PopulateDNSResult := fun e r =>
      { A := r, AAAA := [], Ipv4Locate := "", Ipv4Asn := "", Ipv6Locate := "", Ipv6Asn := "",
        rest := e }
    NewDomainCheckInfo := fun raw fmt fromUrl =>
      { A := [], AAAA := [], Ipv4Locate := "", Ipv4Asn := "", Ipv6Locate := "", Ipv6Asn := "",
        rest := { RAW := raw, FMT := fmt, IsIPv4 := false, FromUrl := fromUrl } }
    NewIPCheckInfo := fun raw fmt isIPv4 fromUrl =>
      { A := if isIPv4 then [fmt] else [], AAAA := if isIPv4 then [] else [fmt],
        Ipv4Locate := "", Ipv4Asn := "", Ipv6Locate := "", Ipv6Asn := "",
        rest := { RAW := raw, FMT := fmt, IsIPv4 := isIPv4, FromUrl := fromUrl } }
    InitDBEngines := fun _ => if dbOk then .ok () else .error "open asset/qqwry.dat"
    QueryIPInfo := fun eng _ _ =>
      (.ok { IPv4Locations := "TEST-NET-2", IPv4AsnInfos := "AS64496", IPv6Locations := "",
             IPv6AsnInfos := "" }, eng)
    ReadJsonToStruct := fun _ cdnData => if sourceOk then .ok cdnData else .error "open source.json"
    CheckCDNBatch := fun _ checkInfos => .ok (checkInfos.map (fun c => c.rest.FMT))
    GetNoCDNs := fun r => r
    MergeCheckResultsToCheckInfos := fun checkInfos r => checkInfos.map (fun c => c.rest.RAW) ++ r
    ToLower := fun s => String.mk (s.data.map Char.toLower) }

/-! ## Facts about Go maps -/

section MapLemmas

variable {V W : Type}

theorem lookup_foldl_insert (f : V → W) (l : List ((_ : String) × V)) (hl : l.NodupKeys)
    (init : GoMap W) (k : String) :
    (l.foldl (fun r e => r.insert e.1 (f e.2)) init).lookup k =
      match l.dlookup k with
      | some v => some (f v)
      | none => init.lookup k := by
  induction l generalizing init with
  | nil => simp
  | cons e l ih =>
    obtain ⟨a, b⟩ := e
    obtain ⟨hk, hl'⟩ := List.nodupKeys_cons.mp hl
    rw [List.foldl_cons, ih hl']
    by_cases h : k = a
    · subst h
      have hnone : l.dlookup k = none := List.dlookup_eq_none.mpr hk
      simp [hnone, List.dlookup_cons_eq, AList.lookup_insert]
    · rw [List.dlookup_cons_ne l ⟨a, b⟩ h]
      cases hd : l.dlookup k with
      | some v => simp
      | none => simp [AList.lookup_insert_ne h]

theorem lookup_foldl_insert_empty (f : V → W) (m : GoMap V) (k : String) :
    (m.entries.foldl (fun r e => r.insert e.1 (f e.2)) (∅ : GoMap W)).lookup k =
      (m.lookup k).map f := by
  rw [lookup_foldl_insert f m.entries m.nodupKeys]
  show (match m.lookup k with
      | some v => some (f v)
      | none => (∅ : GoMap W).lookup k) = (m.lookup k).map f
  cases m.lookup k <;> simp

theorem lookup_CopyMap (m : GoMap (List String)) (k : String) :
    (CopyMap m).lookup k = m.lookup k := by
  unfold CopyMap
  rw [lookup_foldl_insert_empty (fun v => [] ++ v)]
  cases m.lookup k <;> simp

theorem index_insert_self (r : GoMap (List String)) (k : String) (v : List String) :
    GoMap.index (r.insert k v) k = v := by
  simp [GoMap.index, AList.lookup_insert]

theorem index_insert_ne (r : GoMap (List String)) {k k' : String} (v : List String)
    (h : k ≠ k') : GoMap.index (r.insert k' v) k = r.index k := by
  simp [GoMap.index, AList.lookup_insert_ne h]

theorem index_foldl_naliMapStep (l : List ((_ : String) × NaliEntry)) (init : GoMap (List String))
    (p : String) :
    GoMap.index (l.foldl naliMapStep init) p =
      init.index p ++ (l.filter (fun e => decide (e.2.Name = p))).map (fun e => e.1) := by
  induction l generalizing init with
  | nil => simp
  | cons e l ih =>
    rw [List.foldl_cons, ih]
    by_cases h : e.2.Name = p
    · subst h
      simp [naliMapStep, index_insert_self]
    · have h' : p ≠ e.2.Name := fun h'' => h h''.symm
      simp [naliMapStep, index_insert_ne _ _ h', h]

theorem mem_foldl_naliMapStep (l : List ((_ : String) × NaliEntry)) (init : GoMap (List String))
    (p : String) :
    p ∈ l.foldl naliMapStep init ↔ p ∈ init ∨ ∃ e ∈ l, e.2.Name = p := by
  induction l generalizing init with
  | nil => simp
  | cons e l ih =>
    rw [List.foldl_cons, ih]
    simp only [naliMapStep, AList.mem_insert, List.mem_cons, exists_eq_or_imp]
    constructor
    · rintro ((h | h) | h)
      · exact Or.inr (Or.inl h.symm)
      · exact Or.inl h
      · exact Or.inr (Or.inr h)
    · rintro (h | h | h)
      · exact Or.inl (Or.inr h)
      · exact Or.inl (Or.inl h.symm)
      · exact Or.inr h

theorem sum_length_kerase (l : List ((_ : String) × List String)) (k : String) :
    ((l.kerase k).map (fun e => e.2.length)).sum + ((l.dlookup k).getD []).length =
      (l.map (fun e => e.2.length)).sum := by
  induction l with
  | nil => simp
  | cons e l ih =>
    obtain ⟨a, b⟩ := e
    by_cases h : k = a
    · subst h
      simp [List.kerase_cons_eq, List.dlookup_cons_eq, Nat.add_comm]
    · rw [List.kerase_cons_ne h, List.dlookup_cons_ne l ⟨a, b⟩ h]
      simp only [List.map_cons, List.sum_cons]
      omega

theorem total_insert (r : GoMap (List String)) (k : String) (v : List String) :
    GoMap.total (r.insert k v) + (r.index k).length = r.total + v.length := by
  have h := sum_length_kerase r.entries k
  simp only [GoMap.total, GoMap.index, AList.insert_entries, List.map_cons, List.sum_cons]
  change _ + ((r.entries.dlookup k).getD []).length = _
  omega

theorem total_foldl_naliMapStep (l : List ((_ : String) × NaliEntry)) (init : GoMap (List String)) :
    GoMap.total (l.foldl naliMapStep init) = init.total + l.length := by
  induction l generalizing init with
  | nil => simp
  | cons e l ih =>
    rw [List.foldl_cons, ih]
    have h := total_insert init e.2.Name (init.index e.2.Name ++ [e.1])
    simp only [naliMapStep, List.length_append, List.length_cons, List.length_nil] at h ⊢
    omega

end MapLemmas

/-! ## The translators write one map each -/

theorem foldl_naliStep (l : List ((_ : String) × NaliEntry)) (d : CDNData) :
    l.foldl naliStep d =
      { d with CDN := { d.CDN with CNAME := l.foldl naliMapStep d.CDN.CNAME } } := by
  induction l generalizing d with
  | nil => rfl
  | cons e l ih => rw [List.foldl_cons, ih]; rfl

theorem foldl_commonStep (l : List ((_ : String) × List String)) (d : CDNData) :
    l.foldl commonStep d =
      { d with CDN := { d.CDN with
          CNAME := l.foldl (fun r e => r.insert e.1 ([] ++ e.2)) d.CDN.CNAME } } := by
  induction l generalizing d with
  | nil => rfl
  | cons e l ih => rw [List.foldl_cons, ih]; rfl

theorem foldl_cloudKeysStep (l : List ((_ : String) × CloudKeysEntry)) (d : CDNData) :
    l.foldl cloudKeysStep d =
      { d with CLOUD := { d.CLOUD with
          KEYS := l.foldl (fun r e => r.insert e.1 e.2.Keys) d.CLOUD.KEYS } } := by
  induction l generalizing d with
  | nil => rfl
  | cons e l ih => rw [List.foldl_cons, ih]; rfl

theorem patternMapInvariant_empty (norm : String → String) :
    PatternMapInvariant norm (∅ : GoMap (List String)) := by
  intro p hp
  simp at hp

theorem patternMapInvariant_of_lookup (norm : String → String) {m m' : GoMap (List String)}
    (h : ∀ p, m'.lookup p = m.lookup p) (hm : PatternMapInvariant norm m) :
    PatternMapInvariant norm m' := by
  intro p hp
  have hp' : p ∈ m.keys := by
    have h1 : (m'.lookup p).isSome := AList.lookup_isSome.mpr (AList.mem_keys.mpr hp)
    rw [h p] at h1
    exact AList.mem_keys.mp (AList.lookup_isSome.mp h1)
  have := hm p hp'
  simpa [GoMap.index, h p] using this

theorem datasetInvariant_empty (norm : String → String) :
    DatasetInvariant norm NewEmptyCDNData :=
  ⟨patternMapInvariant_empty norm, patternMapInvariant_empty norm,
    patternMapInvariant_empty norm, patternMapInvariant_empty norm,
    patternMapInvariant_empty norm, patternMapInvariant_empty norm,
    patternMapInvariant_empty norm⟩

theorem lookup_commonFold (m : GoMap (List String)) (p : String) :
    (m.entries.foldl (fun r e => r.insert e.1 ([] ++ e.2)) (∅ : GoMap (List String))).lookup p =
      m.lookup p := lookup_CopyMap m p

theorem lookup_keysFold (y : GoMap CloudKeysEntry) (p : String) :
    (y.entries.foldl (fun r e => r.insert e.1 e.2.Keys) (∅ : GoMap (List String))).lookup p =
      (y.lookup p).map (fun v => v.Keys) :=
  lookup_foldl_insert_empty (fun v : CloudKeysEntry => v.Keys) y p

/-! ## Source B -/

/-- C1: for every decoded Source B object, `TransferPDCdnCheckJson` returns a
dataset whose CDN.IP, WAF.IP and CLOUD.IP are the maps `cdn`, `waf` and `cloud`
and whose CDN.CNAME is the map `common` (the same keys, and for each key the same
list in the same order), while WAF.CNAME, CLOUD.CNAME and CLOUD.KEYS are as
`NewEmptyCDNData` created them. -/
theorem TransferPDCdnCheckJson_populates (src : PDCdnCheckData) :
    ∃ d, TransferPDCdnCheckJson (some src) = some d ∧
      (∀ p, d.CDN.IP.lookup p = src.CDN.lookup p) ∧
      (∀ p, d.WAF.IP.lookup p = src.WAF.lookup p) ∧
      (∀ p, d.CLOUD.IP.lookup p = src.Cloud.lookup p) ∧
      (∀ p, d.CDN.CNAME.lookup p = src.Common.lookup p) ∧
      d.WAF.CNAME = NewEmptyCDNData.WAF.CNAME ∧
      d.CLOUD.CNAME = NewEmptyCDNData.CLOUD.CNAME ∧
      d.CLOUD.KEYS = NewEmptyCDNData.CLOUD.KEYS := by
  refine ⟨_, rfl, ?_, ?_, ?_, ?_, ?_, ?_, ?_⟩
  · intro p; rw [foldl_commonStep]; exact lookup_CopyMap src.CDN p
  · intro p; rw [foldl_commonStep]; exact lookup_CopyMap src.WAF p
  · intro p; rw [foldl_commonStep]; exact lookup_CopyMap src.Cloud p
  · intro p; rw [foldl_commonStep]; exact lookup_commonFold src.Common p
  · rw [foldl_commonStep]
  · rw [foldl_commonStep]
  · rw [foldl_commonStep]

/-- C1, the example of the spec: `cdn = {"Acme": ["198.51.100.0/24"]}` and
`common = {"Acme": ["cdn.acme.test"]}`. -/
theorem TransferPDCdnCheckJson_populates_witness :
    ∃ d, TransferPDCdnCheckJson (some
        { CDN := GoMap.ofList [("Acme", ["198.51.100.0/24"])], WAF := ∅, Cloud := ∅,
          Common := GoMap.ofList [("Acme", ["cdn.acme.test"])] }) = some d ∧
      d.CDN.IP.lookup "Acme" = some ["198.51.100.0/24"] ∧
      d.CDN.CNAME.lookup "Acme" = some ["cdn.acme.test"] := by
  obtain ⟨d, hd, h1, _, _, h4, _⟩ := TransferPDCdnCheckJson_populates
    { CDN := GoMap.ofList [("Acme", ["198.51.100.0/24"])], WAF := ∅, Cloud := ∅,
      Common := GoMap.ofList [("Acme", ["cdn.acme.test"])] }
  exact ⟨d, hd, (h1 "Acme").trans (by decide), (h4 "Acme").trans (by decide)⟩

/-! ## Source A -/

/-- C8: for every decoded Source A mapping, `TransferNaliCdnYaml` returns a
dataset whose CDN.CNAME has as keys exactly the provider names occurring in the
mapping; for each provider the list is, up to order, the domains whose entry
names that provider, without repetition; the number of stored patterns is the
number of entries; the result is the same for any mapping with the same domains
and names (the link is not read); and every other map is as `NewEmptyCDNData`
created it. -/
theorem TransferNaliCdnYaml_populates (yamlData : GoMap NaliEntry) :
    ∃ d, TransferNaliCdnYaml (some yamlData) = some d ∧
      (∀ p, p ∈ d.CDN.CNAME.keys ↔ ∃ e ∈ yamlData.entries, e.2.Name = p) ∧
      (∀ p, (d.CDN.CNAME.index p).Perm
        ((yamlData.entries.filter (fun e => decide (e.2.Name = p))).map (fun e => e.1))) ∧
      (∀ p, (d.CDN.CNAME.index p).Nodup) ∧
      d.CDN.CNAME.total = yamlData.entries.length ∧
      (∀ other : GoMap NaliEntry,
        other.entries.map (fun e => (e.1, e.2.Name)) =
          yamlData.entries.map (fun e => (e.1, e.2.Name)) →
        TransferNaliCdnYaml (some other) = some d) ∧
      d.CDN.IP = NewEmptyCDNData.CDN.IP ∧
      d.WAF = NewEmptyCDNData.WAF ∧
      d.CLOUD = NewEmptyCDNData.CLOUD := by
  have hidx : ∀ p, GoMap.index (yamlData.entries.foldl naliMapStep (∅ : GoMap (List String))) p =
      (yamlData.entries.filter (fun e => decide (e.2.Name = p))).map (fun e => e.1) := by
    intro p
    rw [index_foldl_naliMapStep]
    simp [GoMap.index]
  refine ⟨_, rfl, ?_, ?_, ?_, ?_, ?_, ?_, ?_, ?_⟩
  · intro p
    rw [foldl_naliStep]
    have := mem_foldl_naliMapStep yamlData.entries (∅ : GoMap (List String)) p
    simpa [AList.mem_keys] using this
  · intro p
    rw [foldl_naliStep]
    exact (hidx p) ▸ List.Perm.refl _
  · intro p
    rw [foldl_naliStep]
    show (GoMap.index (yamlData.entries.foldl naliMapStep (∅ : GoMap (List String))) p).Nodup
    rw [hidx p]
    have hsub : ((yamlData.entries.filter (fun e => decide (e.2.Name = p))).map
        (fun e => e.1)).Sublist yamlData.keys :=
      (List.filter_sublist _).map _
    exact hsub.nodup yamlData.keys_nodup
  · rw [foldl_naliStep]
    show GoMap.total (yamlData.entries.foldl naliMapStep (∅ : GoMap (List String))) = _
    rw [total_foldl_naliMapStep]
    simp [GoMap.total]
  · intro other hother
    have key : ∀ (l l' : List ((_ : String) × NaliEntry)) (d : CDNData),
        l.map (fun e => (e.1, e.2.Name)) = l'.map (fun e => (e.1, e.2.Name)) →
        l.foldl naliStep d = l'.foldl naliStep d := by
      intro l
      induction l with
      | nil =>
        intro l' d h
        cases l' with
        | nil => rfl
        | cons _ _ => simp at h
      | cons e l ih =>
        intro l' d h
        cases l' with
        | nil => simp at h
        | cons e' l' =>
          simp only [List.map_cons, List.cons.injEq, Prod.mk.injEq] at h
          obtain ⟨⟨h1, h2⟩, h3⟩ := h
          have hstep : naliStep d e = naliStep d e' := by
            simp [naliStep, h1, h2]
          rw [List.foldl_cons, List.foldl_cons, hstep]
          exact ih l' _ h3
    show some _ = some _
    rw [key other.entries yamlData.entries NewEmptyCDNData hother]
  · rw [foldl_naliStep]
  · rw [foldl_naliStep]
  · rw [foldl_naliStep]

/-! ## Source C -/

/-- C9: for every decoded Source C mapping, `TransferCloudKeysYaml` returns a
dataset whose CLOUD.KEYS has exactly the provider names of the mapping as keys,
each bound to that provider's key list in the same order, while the CNAME and IP
maps of CDN, WAF and CLOUD are as `NewEmptyCDNData` created them. -/
theorem TransferCloudKeysYaml_populates (cloudKeysYaml : GoMap CloudKeysEntry) :
    ∃ d, TransferCloudKeysYaml (some cloudKeysYaml) = some d ∧
      (∀ p, d.CLOUD.KEYS.lookup p = (cloudKeysYaml.lookup p).map (fun v => v.Keys)) ∧
      (∀ p, p ∈ d.CLOUD.KEYS.keys ↔ p ∈ cloudKeysYaml.keys) ∧
      d.CDN = NewEmptyCDNData.CDN ∧
      d.WAF = NewEmptyCDNData.WAF ∧
      d.CLOUD.CNAME = NewEmptyCDNData.CLOUD.CNAME ∧
      d.CLOUD.IP = NewEmptyCDNData.CLOUD.IP := by
  refine ⟨_, rfl, ?_, ?_, ?_, ?_, ?_, ?_⟩
  · intro p; rw [foldl_cloudKeysStep]; exact lookup_keysFold cloudKeysYaml p
  · intro p
    rw [foldl_cloudKeysStep]
    have h := lookup_keysFold cloudKeysYaml p
    rw [← AList.mem_keys, ← AList.mem_keys, ← AList.lookup_isSome, ← AList.lookup_isSome]
    show (AList.lookup p (cloudKeysYaml.entries.foldl (fun r e => r.insert e.1 e.2.Keys)
      (∅ : GoMap (List String)))).isSome = true ↔ _
    rw [h]
    simp
  · rw [foldl_cloudKeysStep]
  · rw [foldl_cloudKeysStep]
  · rw [foldl_cloudKeysStep]
  · rw [foldl_cloudKeysStep]

/-! ## The dataset invariant -/

/-- C6, as stated, fails: Source C with the single entry `"": {keys: [""]}`
yields a dataset whose CLOUD.KEYS has the empty provider name bound to a list
holding the empty string, whatever the case normalization is. -/
theorem translators_invariant_counterexample :
    ¬ ∃ norm : String → String, ∀ d,
      TransferCloudKeysYaml (some (GoMap.ofList [("", { Keys := [""] })])) = some d →
        DatasetInvariant norm d := by
  rintro ⟨norm, h⟩
  have hd := h _ rfl
  have hk := hd.2.2.2.2.2.2 "" (by decide)
  exact hk.1 rfl

/-- C6, amended: the translators copy provider names and patterns verbatim, so
the dataset has only non-empty, normalized provider names and no empty pattern
whenever the decoded input has only non-empty, normalized provider names and no
empty pattern (domain for Source A, list item for Sources B and C). -/
theorem translators_preserve_invariant (norm : String → String) :
    (∀ y, NaliClean norm y → ∃ d, TransferNaliCdnYaml (some y) = some d ∧
      DatasetInvariant norm d) ∧
    (∀ src, PDClean norm src → ∃ d, TransferPDCdnCheckJson (some src) = some d ∧
      DatasetInvariant norm d) ∧
    (∀ y, CloudKeysClean norm y → ∃ d, TransferCloudKeysYaml (some y) = some d ∧
      DatasetInvariant norm d) := by
  have e := datasetInvariant_empty norm
  refine ⟨?_, ?_, ?_⟩
  · intro y hy
    refine ⟨_, rfl, ?_⟩
    rw [foldl_naliStep]
    refine ⟨?_, e.2.1, e.2.2.1, e.2.2.2.1, e.2.2.2.2.1, e.2.2.2.2.2.1, e.2.2.2.2.2.2⟩
    intro p hp
    have hp' : ∃ e ∈ y.entries, e.2.Name = p := by
      have := (mem_foldl_naliMapStep y.entries (∅ : GoMap (List String)) p).mp
        (AList.mem_keys.mpr hp)
      simpa using this
    obtain ⟨e0, he0, hname⟩ := hp'
    have h0 := hy e0 he0
    refine ⟨hname ▸ h0.2.1, hname ▸ h0.2.2, ?_⟩
    show "" ∉ GoMap.index (y.entries.foldl naliMapStep (∅ : GoMap (List String))) p
    rw [index_foldl_naliMapStep]
    simp only [GoMap.index, AList.lookup_empty, Option.getD_none, List.nil_append,
      List.mem_map, List.mem_filter, not_exists, not_and]
    intro x hx hx'
    exact (hy x hx.1).1 hx'
  · intro src hsrc
    refine ⟨_, rfl, ?_⟩
    rw [foldl_commonStep]
    exact ⟨patternMapInvariant_of_lookup norm (lookup_commonFold src.Common) hsrc.2.2.2,
      patternMapInvariant_of_lookup norm (lookup_CopyMap src.CDN) hsrc.1,
      e.2.2.1,
      patternMapInvariant_of_lookup norm (lookup_CopyMap src.WAF) hsrc.2.1,
      e.2.2.2.2.1,
      patternMapInvariant_of_lookup norm (lookup_CopyMap src.Cloud) hsrc.2.2.1,
      e.2.2.2.2.2.2⟩
  · intro y hy
    refine ⟨_, rfl, ?_⟩
    rw [foldl_cloudKeysStep]
    refine ⟨e.1, e.2.1, e.2.2.1, e.2.2.2.1, e.2.2.2.2.1, e.2.2.2.2.2.1, ?_⟩
    intro p hp
    have hl := lookup_keysFold y p
    have hsome : (y.lookup p).isSome := by
      have h1 := AList.lookup_isSome.mpr (AList.mem_keys.mpr hp)
      change (AList.lookup p (y.entries.foldl (fun r e => r.insert e.1 e.2.Keys)
        (∅ : GoMap (List String)))).isSome = true at h1
      rw [hl] at h1
      simpa using h1
    obtain ⟨v, hv⟩ := Option.isSome_iff_exists.mp hsome
    have hmem : (⟨p, v⟩ : (_ : String) × CloudKeysEntry) ∈ y.entries :=
      AList.mem_lookup_iff.mp hv
    have h0 := hy ⟨p, v⟩ hmem
    refine ⟨h0.1, h0.2.1, ?_⟩
    show "" ∉ GoMap.index (y.entries.foldl (fun r e => r.insert e.1 e.2.Keys)
      (∅ : GoMap (List String))) p
    simp only [GoMap.index, hl, hv, Option.map_some', Option.getD_some]
    exact h0.2.2

/-- C6, amended, at concrete inputs: one entry per source, with the identity as
normalization. -/
theorem translators_preserve_invariant_witness :
    (∃ d, TransferNaliCdnYaml (some (GoMap.ofList
        [("cdn.acme.test", { Name := "Acme", Link := "https://acme.test" })])) = some d ∧
      DatasetInvariant id d) ∧
    (∃ d, TransferPDCdnCheckJson (some
        { CDN := GoMap.ofList [("Acme", ["198.51.100.0/24"])], WAF := ∅, Cloud := ∅,
          Common := GoMap.ofList [("Acme", ["cdn.acme.test"])] }) = some d ∧
      DatasetInvariant id d) ∧
    (∃ d, TransferCloudKeysYaml (some (GoMap.ofList [("Acme", { Keys := ["AKID"] })])) = some d ∧
      DatasetInvariant id d) :=
  ⟨(translators_preserve_invariant id).1 _ (by decide),
    (translators_preserve_invariant id).2.1 _ (by decide),
    (translators_preserve_invariant id).2.2 _ (by decide)⟩


/-! ## `queryDomainInfo` -/

section PipelineFacts

variable {DR Loc Asn Rest CR Q D Eng : Type}

theorem foldl_append_singleton {α β : Type} (f : α → β) (l : List α) (init : List β) :
    l.foldl (fun acc x => acc ++ [f x]) init = init ++ l.map f := by
  induction l generalizing init with
  | nil => simp
  | cons x l ih => simp [List.foldl_cons, ih]

theorem queryDomainInfo_eq_map (w : World DR Loc Asn Rest CR Q D Eng) (dnsConfig : DNSQueryConfig)
    (domainEntries : List TargetEntry) :
    queryDomainInfo w dnsConfig domainEntries =
      domainEntries.map (domainCheckInfo w (w.Process dnsConfig domainEntries)) := by
  unfold queryDomainInfo
  simp [foldl_append_singleton]

/-- C2: `queryDomainInfo` returns one record per domain entry, in the order of
the entries: the output has the length of the entry list, and its i-th element
is `PopulateDNSResult` of the i-th entry and its result when the map returned by
the processor holds a non-nil result under the entry's `FMT`, and the DNS-less
record `NewDomainCheckInfo (RAW, FMT, FromUrl)` when the map has no entry for
that key or holds nil. -/
theorem queryDomainInfo_one_record_per_entry (w : World DR Loc Asn Rest CR Q D Eng)
    (dnsConfig : DNSQueryConfig) (domainEntries : List TargetEntry) :
    (queryDomainInfo w dnsConfig domainEntries).length = domainEntries.length ∧
    ∀ (i : Nat) (e : TargetEntry), domainEntries[i]? = some e →
      (∀ result, (w.Process dnsConfig domainEntries).lookup e.FMT = some (some result) →
        (queryDomainInfo w dnsConfig domainEntries)[i]? = some (w.PopulateDNSResult e result)) ∧
      ((w.Process dnsConfig domainEntries).lookup e.FMT = none ∨
          (w.Process dnsConfig domainEntries).lookup e.FMT = some none →
        (queryDomainInfo w dnsConfig domainEntries)[i]? =
          some (w.NewDomainCheckInfo e.RAW e.FMT e.FromUrl)) := by
  rw [queryDomainInfo_eq_map]
  refine ⟨by simp, ?_⟩
  intro i e he
  refine ⟨?_, ?_⟩
  · intro result hres
    simp [List.getElem?_map, he, domainCheckInfo, hres]
  · rintro (hres | hres) <;> simp [List.getElem?_map, he, domainCheckInfo, hres]

/-- C2 at a concrete input: three entries, of which the first has a result, the
second is bound to nil and the third is absent from the map. -/
theorem queryDomainInfo_one_record_per_entry_witness :
    queryDomainInfo
      { demoWorld "a.test,b.test,c.test" "default" true true with
        Process := fun _ _ => GoMap.ofList [("a.test", some ["192.0.2.1"]), ("b.test", none)] }
      (mkDNSConfig (demoConfig "a.test,b.test,c.test" "default") [] [])
      [{ RAW := "a.test", FMT := "a.test", IsIPv4 := false, FromUrl := false },
       { RAW := "b.test", FMT := "b.test", IsIPv4 := false, FromUrl := false },
       { RAW := "c.test", FMT := "c.test", IsIPv4 := false, FromUrl := false }] =
    [{ A := ["192.0.2.1"], AAAA := [], Ipv4Locate := "", Ipv4Asn := "", Ipv6Locate := "",
       Ipv6Asn := "",
       rest := { RAW := "a.test", FMT := "a.test", IsIPv4 := false, FromUrl := false } },
     { A := [], AAAA := [], Ipv4Locate := "", Ipv4Asn := "", Ipv6Locate := "", Ipv6Asn := "",
       rest := { RAW := "b.test", FMT := "b.test", IsIPv4 := false, FromUrl := false } },
     { A := [], AAAA := [], Ipv4Locate := "", Ipv4Asn := "", Ipv6Locate := "", Ipv6Asn := "",
       rest := { RAW := "c.test", FMT := "c.test", IsIPv4 := false, FromUrl := false } }] := by
  have h := queryDomainInfo_one_record_per_entry
    { demoWorld "a.test,b.test,c.test" "default" true true with
      Process := fun _ _ => GoMap.ofList [("a.test", some ["192.0.2.1"]), ("b.test", none)] }
    (mkDNSConfig (demoConfig "a.test,b.test,c.test" "default") [] [])
    [{ RAW := "a.test", FMT := "a.test", IsIPv4 := false, FromUrl := false },
     { RAW := "b.test", FMT := "b.test", IsIPv4 := false, FromUrl := false },
     { RAW := "c.test", FMT := "c.test", IsIPv4 := false, FromUrl := false }]
  have h0 := (h.2 0 _ rfl).1 ["192.0.2.1"] (by decide)
  have h1 := (h.2 1 _ rfl).2 (Or.inr (by decide))
  have h2 := (h.2 2 _ rfl).2 (Or.inl (by decide))
  apply List.ext_getElem?
  intro n
  match n with
  | 0 => exact h0
  | 1 => exact h1
  | 2 => exact h2
  | n + 3 =>
    have hlen := h.1
    rw [List.getElem?_eq_none (by rw [hlen]; simp), List.getElem?_eq_none (by simp)]

/-! ## `queryIPInfo` -/

theorem ipInfoRel_step (w : World DR Loc Asn Rest CR Q D Eng)
    (st : List (CheckInfo Loc Asn Rest) × Eng) (c : CheckInfo Loc Asn Rest) :
    ∃ c', (ipInfoStep w st c).1 = st.1 ++ [c'] ∧
      IPInfoRel w st.2 c c' (ipInfoStep w st c).2 := by
  unfold ipInfoStep
  by_cases h : c.A.length > 0 ∨ c.AAAA.length > 0
  · have hne : ¬ (c.A = [] ∧ c.AAAA = []) := by
      rintro ⟨h1, h2⟩
      simp [h1, h2] at h
    rw [if_pos h]
    cases hq : w.QueryIPInfo st.2 c.A c.AAAA with
    | mk res eng =>
      cases res with
      | error err =>
        refine ⟨c, rfl, fun h' => absurd h' hne, fun _ => ⟨?_, ?_⟩⟩
        · simp [hq]
        · simp [hq]
      | ok ipInfo =>
        refine ⟨setIPInfo c ipInfo, rfl, fun h' => absurd h' hne, fun _ => ⟨?_, ?_⟩⟩
        · simp [hq]
        · simp [hq, setIPInfo]
  · rw [if_neg h]
    have he : c.A = [] ∧ c.AAAA = [] := by
      constructor
      · cases hA : c.A with
        | nil => rfl
        | cons x xs => exact absurd (Or.inl (by simp [hA])) h
      · cases hA : c.AAAA with
        | nil => rfl
        | cons x xs => exact absurd (Or.inr (by simp [hA])) h
    exact ⟨c, rfl, fun _ => ⟨rfl, rfl⟩, fun h' => absurd he h'⟩

theorem ipInfoRel_foldl (w : World DR Loc Asn Rest CR Q D Eng)
    (l : List (CheckInfo Loc Asn Rest)) (st : List (CheckInfo Loc Asn Rest) × Eng) :
    ∃ (l' : List (CheckInfo Loc Asn Rest)) (engs : List Eng),
      (l.foldl (ipInfoStep w) st).1 = st.1 ++ l' ∧
      l'.length = l.length ∧ engs.length = l.length + 1 ∧ engs[0]? = some st.2 ∧
      ∀ (i : Nat) (c : CheckInfo Loc Asn Rest), l[i]? = some c →
        ∃ c' eng eng', l'[i]? = some c' ∧ engs[i]? = some eng ∧ engs[i + 1]? = some eng' ∧
          IPInfoRel w eng c c' eng' := by
  induction l generalizing st with
  | nil =>
    refine ⟨[], [st.2], by simp, rfl, rfl, by simp, ?_⟩
    intro i c hc
    simp at hc
  | cons c l ih =>
    obtain ⟨c', hc', hrel⟩ := ipInfoRel_step w st c
    obtain ⟨l', engs, hl', hlen, hlen', h0, hall⟩ := ih (ipInfoStep w st c)
    refine ⟨c' :: l', st.2 :: engs, ?_, by simp [hlen], by simp [hlen'], by simp, ?_⟩
    · rw [List.foldl_cons, hl', hc']
      simp
    · intro i d hd
      cases i with
      | zero =>
        simp only [List.getElem?_cons_zero, Option.some.injEq] at hd
        subst hd
        exact ⟨c', st.2, (ipInfoStep w st c).2, by simp, by simp, by simpa using h0, hrel⟩
      | succ i =>
        simp only [List.getElem?_cons_succ] at hd
        obtain ⟨d', eng, eng', h1, h2, h3, h4⟩ := hall i d hd
        exact ⟨d', eng, eng', by simpa using h1, by simpa using h2, by simpa using h3, h4⟩

/-- C10: when the engines open, `queryIPInfo` returns a list of the same length
whose i-th record comes from the i-th input record, for every i and whatever
the lookups of the other records did.  With `engs` the successive states of the
engines, starting from the state `InitDBEngines` returned: a record whose `A`
and `AAAA` are both empty is not looked up (the state of the engines does not
change) and is unchanged; any other record is looked up once, in the state the
engines are in when its turn comes; if that lookup returns an error the record
is unchanged; if it succeeds the record has `Ipv4Locate`, `Ipv4Asn`,
`Ipv6Locate`, `Ipv6Asn` set to its result and every other field unchanged. -/
theorem queryIPInfo_enriches_in_place (w : World DR Loc Asn Rest CR Q D Eng)
    (ipDbConfig : IpDbConfig) (ipEngines : Eng) (checkInfos : List (CheckInfo Loc Asn Rest))
    (hinit : w.InitDBEngines ipDbConfig = .ok ipEngines) :
    ∃ (out : List (CheckInfo Loc Asn Rest)) (engs : List Eng),
      queryIPInfo w ipDbConfig checkInfos = some out ∧
      out.length = checkInfos.length ∧
      engs.length = checkInfos.length + 1 ∧ engs[0]? = some ipEngines ∧
      ∀ (i : Nat) (c : CheckInfo Loc Asn Rest), checkInfos[i]? = some c →
        ∃ c' eng eng', out[i]? = some c' ∧ engs[i]? = some eng ∧ engs[i + 1]? = some eng' ∧
          IPInfoRel w eng c c' eng' := by
  obtain ⟨l', engs, hl', hlen, hlen', h0, hall⟩ := ipInfoRel_foldl w checkInfos ([], ipEngines)
  refine ⟨l', engs, ?_, hlen, hlen', h0, hall⟩
  unfold queryIPInfo
  rw [hinit]
  simp [hl']

/-- C10 at a concrete input: a domain record without addresses and an IP record;
the first is returned as it was, the second with its four enrichment fields
set. -/
theorem queryIPInfo_enriches_in_place_witness :
    (∃ out, queryIPInfo (demoWorld "www.example.org,198.51.100.7" "default" true true)
        (mkIpDbConfig (demoConfig "www.example.org,198.51.100.7" "default"))
        [{ A := [], AAAA := [], Ipv4Locate := "", Ipv4Asn := "", Ipv6Locate := "", Ipv6Asn := "",
           rest := { RAW := "www.example.org", FMT := "www.example.org", IsIPv4 := false,
                     FromUrl := false } },
         { A := ["198.51.100.7"], AAAA := [], Ipv4Locate := "", Ipv4Asn := "", Ipv6Locate := "",
           Ipv6Asn := "",
           rest := { RAW := "198.51.100.7", FMT := "198.51.100.7", IsIPv4 := true,
                     FromUrl := false } }] = some out ∧
      out.length = 2) ∧
    queryIPInfo (demoWorld "www.example.org,198.51.100.7" "default" true true)
        (mkIpDbConfig (demoConfig "www.example.org,198.51.100.7" "default"))
        [{ A := [], AAAA := [], Ipv4Locate := "", Ipv4Asn := "", Ipv6Locate := "", Ipv6Asn := "",
           rest := { RAW := "www.example.org", FMT := "www.example.org", IsIPv4 := false,
                     FromUrl := false } },
         { A := ["198.51.100.7"], AAAA := [], Ipv4Locate := "", Ipv4Asn := "", Ipv6Locate := "",
           Ipv6Asn := "",
           rest := { RAW := "198.51.100.7", FMT := "198.51.100.7", IsIPv4 := true,
                     FromUrl := false } }] =
      some
        [{ A := [], AAAA := [], Ipv4Locate := "", Ipv4Asn := "", Ipv6Locate := "", Ipv6Asn := "",
           rest := { RAW := "www.example.org", FMT := "www.example.org", IsIPv4 := false,
                     FromUrl := false } },
         { A := ["198.51.100.7"], AAAA := [], Ipv4Locate := "TEST-NET-2", Ipv4Asn := "AS64496",
           Ipv6Locate := "", Ipv6Asn := "",
           rest := { RAW := "198.51.100.7", FMT := "198.51.100.7", IsIPv4 := true,
                     FromUrl := false } }] :=
  ⟨(queryIPInfo_enriches_in_place (demoWorld "www.example.org,198.51.100.7" "default" true true)
      (mkIpDbConfig (demoConfig "www.example.org,198.51.100.7" "default")) ()
      _ rfl).elim fun out h => h.elim fun _ h' => ⟨out, h'.1, h'.2.1⟩,
    by decide⟩

/-! ## `main` -/

theorem queryIPInfo_eq_some (w : World DR Loc Asn Rest CR Q D Eng) (ipDbConfig : IpDbConfig)
    (checkInfos out : List (CheckInfo Loc Asn Rest))
    (h : queryIPInfo w ipDbConfig checkInfos = some out) :
    ∃ ipEngines, w.InitDBEngines ipDbConfig = .ok ipEngines := by
  unfold queryIPInfo at h
  split at h
  · simp at h
  · exact ⟨_, by assumption⟩

/-- Case analysis on a run of `main`: its nine ways to end. -/
theorem main_cases (w : World DR Loc Asn Rest CR Q D Eng)
    (P : Run (OutputData CR Q D) → Prop)
    (hParse : ∀ err, w.Parse = .error err → P (exit1 [.parseFlags]))
    (hTarget : ∀ config, w.Parse = .ok config → config.Target = "" →
      P (exit1 [.parseFlags, .writeHelp]))
    (hLoad : ∀ config err, w.Parse = .ok config → config.Target ≠ "" →
      loadTargets w config = .error err → P (exit1 [.parseFlags, .loadTargets]))
    (hResolvers : ∀ config targets err, w.Parse = .ok config → config.Target ≠ "" →
      loadTargets w config = .ok targets →
      LoadResolvers w config.ResolversFile config.ResolversNum = .error err →
      P (exit1 [.parseFlags, .loadTargets, .classifyTargets, .loadResolvers]))
    (hCity : ∀ config targets resolvers err, w.Parse = .ok config → config.Target ≠ "" →
      loadTargets w config = .ok targets →
      LoadResolvers w config.ResolversFile config.ResolversNum = .ok resolvers →
      LoadCityMap w config.CityMapFile config.CityMapNum = .error err →
      P (exit1 [.parseFlags, .loadTargets, .classifyTargets, .loadResolvers, .loadCityMap]))
    (hDB : ∀ config targets resolvers randCities, w.Parse = .ok config → config.Target ≠ "" →
      loadTargets w config = .ok targets →
      LoadResolvers w config.ResolversFile config.ResolversNum = .ok resolvers →
      LoadCityMap w config.CityMapFile config.CityMapNum = .ok randCities →
      queryIPInfo w (mkIpDbConfig config)
        (mergedCheckInfos w (mkDNSConfig config resolvers randCities)
          (ClassifyTargets w.classifyOne targets)) = none →
      P (exit1 [.parseFlags, .loadTargets, .classifyTargets, .loadResolvers, .loadCityMap,
        .dnsProcess, .initDBEngines]))
    (hSource : ∀ config targets resolvers randCities checkInfos err, w.Parse = .ok config →
      config.Target ≠ "" → loadTargets w config = .ok targets →
      LoadResolvers w config.ResolversFile config.ResolversNum = .ok resolvers →
      LoadCityMap w config.CityMapFile config.CityMapNum = .ok randCities →
      queryIPInfo w (mkIpDbConfig config)
        (mergedCheckInfos w (mkDNSConfig config resolvers randCities)
          (ClassifyTargets w.classifyOne targets)) = some checkInfos →
      w.ReadJsonToStruct config.SourceJson NewEmptyCDNData = .error err →
      P (exit1 [.parseFlags, .loadTargets, .classifyTargets, .loadResolvers, .loadCityMap,
        .dnsProcess, .initDBEngines, .queryIPInfo, .closeEngines, .readSourceJson]))
    (hCheck : ∀ config targets resolvers randCities checkInfos cdnData err,
      w.Parse = .ok config → config.Target ≠ "" → loadTargets w config = .ok targets →
      LoadResolvers w config.ResolversFile config.ResolversNum = .ok resolvers →
      LoadCityMap w config.CityMapFile config.CityMapNum = .ok randCities →
      queryIPInfo w (mkIpDbConfig config)
        (mergedCheckInfos w (mkDNSConfig config resolvers randCities)
          (ClassifyTargets w.classifyOne targets)) = some checkInfos →
      w.ReadJsonToStruct config.SourceJson NewEmptyCDNData = .ok cdnData →
      w.CheckCDNBatch cdnData checkInfos = .error err →
      P (exit1 [.parseFlags, .loadTargets, .classifyTargets, .loadResolvers, .loadCityMap,
        .dnsProcess, .initDBEngines, .queryIPInfo, .closeEngines, .readSourceJson,
        .checkCDNBatch]))
    (hDone : ∀ config targets resolvers randCities checkInfos cdnData checkResults,
      w.Parse = .ok config → config.Target ≠ "" → loadTargets w config = .ok targets →
      LoadResolvers w config.ResolversFile config.ResolversNum = .ok resolvers →
      LoadCityMap w config.CityMapFile config.CityMapNum = .ok randCities →
      queryIPInfo w (mkIpDbConfig config)
        (mergedCheckInfos w (mkDNSConfig config resolvers randCities)
          (ClassifyTargets w.classifyOne targets)) = some checkInfos →
      w.ReadJsonToStruct config.SourceJson NewEmptyCDNData = .ok cdnData →
      w.CheckCDNBatch cdnData checkInfos = .ok checkResults →
      P { trace := [.parseFlags, .loadTargets, .classifyTargets, .loadResolvers, .loadCityMap,
            .dnsProcess, .initDBEngines, .queryIPInfo, .closeEngines, .readSourceJson,
            .checkCDNBatch, .writeOutput]
          exitCode := 0
          output := some (selectOutput w config.OutputLevel checkInfos checkResults,
            config.OutputType, config.OutputFile) }) :
    P (main w) := by
  cases h1 : w.Parse with
  | error err =>
    have := hParse err h1
    simpa [main, h1] using this
  | ok config =>
    by_cases h2 : config.Target = ""
    · have := hTarget config h1 h2
      simpa [main, h1, h2] using this
    · cases h3 : loadTargets w config with
      | error err =>
        have := hLoad config err h1 h2 h3
        simpa [main, h1, h2, h3] using this
      | ok targets =>
        cases h4 : LoadResolvers w config.ResolversFile config.ResolversNum with
        | error err =>
          have := hResolvers config targets err h1 h2 h3 h4
          simpa [main, h1, h2, h3, h4] using this
        | ok resolvers =>
          cases h5 : LoadCityMap w config.CityMapFile config.CityMapNum with
          | error err =>
            have := hCity config targets resolvers err h1 h2 h3 h4 h5
            simpa [main, h1, h2, h3, h4, h5] using this
          | ok randCities =>
            cases h6 : queryIPInfo w (mkIpDbConfig config)
                (mergedCheckInfos w (mkDNSConfig config resolvers randCities)
                  (ClassifyTargets w.classifyOne targets)) with
            | none =>
              have := hDB config targets resolvers randCities h1 h2 h3 h4 h5 h6
              simpa [main, h1, h2, h3, h4, h5, h6] using this
            | some checkInfos =>
              cases h7 : w.ReadJsonToStruct config.SourceJson NewEmptyCDNData with
              | error err =>
                have := hSource config targets resolvers randCities checkInfos err
                  h1 h2 h3 h4 h5 h6 h7
                simpa [main, h1, h2, h3, h4, h5, h6, h7] using this
              | ok cdnData =>
                cases h8 : w.CheckCDNBatch cdnData checkInfos with
                | error err =>
                  have := hCheck config targets resolvers randCities checkInfos cdnData err
                    h1 h2 h3 h4 h5 h6 h7 h8
                  simpa [main, h1, h2, h3, h4, h5, h6, h7, h8] using this
                | ok checkResults =>
                  have := hDone config targets resolvers randCities checkInfos cdnData
                    checkResults h1 h2 h3 h4 h5 h6 h7 h8
                  simpa [main, h1, h2, h3, h4, h5, h6, h7, h8] using this

/-! ## Output shape -/

/-- C7: the value `main` hands to the output sink is `GetNoCDNs checkResults`
when the lower-cased output level is "quiet", the merge of `checkInfos` and
`checkResults` when it is "detail", and `checkResults` itself otherwise; the
choice depends on the level only through its lower-cased form; and whenever a
run reaches the sink, the value it hands over is this selection, for the
configured level and the results `CheckCDNBatch` returned. -/
theorem selectOutput_by_level (w : World DR Loc Asn Rest CR Q D Eng) (s : String)
    (checkInfos : List (CheckInfo Loc Asn Rest)) (checkResults : CR) :
    (w.ToLower s = "quiet" →
      selectOutput w s checkInfos checkResults = .noCDNs (w.GetNoCDNs checkResults)) ∧
    (w.ToLower s = "detail" →
      selectOutput w s checkInfos checkResults =
        .detail (w.MergeCheckResultsToCheckInfos checkInfos checkResults)) ∧
    (w.ToLower s ≠ "quiet" → w.ToLower s ≠ "detail" →
      selectOutput w s checkInfos checkResults = .results checkResults) ∧
    (∀ s', w.ToLower s' = w.ToLower s →
      selectOutput w s' checkInfos checkResults = selectOutput w s checkInfos checkResults) ∧
    (∀ out, (main w).output = some out →
      ∃ config infos cdnData results,
        w.Parse = .ok config ∧ w.CheckCDNBatch cdnData infos = .ok results ∧
        out = (selectOutput w config.OutputLevel infos results,
          config.OutputType, config.OutputFile)) := by
  refine ⟨?_, ?_, ?_, ?_, ?_⟩
  · intro h
    simp [selectOutput, h]
  · intro h
    have hq : w.ToLower s ≠ "quiet" := by rw [h]; decide
    simp [selectOutput, h]
  · intro h1 h2
    simp [selectOutput, h1, h2]
  · intro s' h
    simp [selectOutput, h]
  · refine main_cases w
      (fun r => ∀ out, r.output = some out →
        ∃ config infos cdnData results,
          w.Parse = .ok config ∧ w.CheckCDNBatch cdnData infos = .ok results ∧
          out = (selectOutput w config.OutputLevel infos results,
            config.OutputType, config.OutputFile)) ?_ ?_ ?_ ?_ ?_ ?_ ?_ ?_ ?_
    · intro _ _ out h; simp [exit1] at h
    · intro _ _ _ out h; simp [exit1] at h
    · intro _ _ _ _ _ out h; simp [exit1] at h
    · intro _ _ _ _ _ _ _ out h; simp [exit1] at h
    · intro _ _ _ _ _ _ _ _ _ out h; simp [exit1] at h
    · intro _ _ _ _ _ _ _ _ _ _ out h; simp [exit1] at h
    · intro _ _ _ _ _ _ _ _ _ _ _ _ _ out h; simp [exit1] at h
    · intro _ _ _ _ _ _ _ _ _ _ _ _ _ _ _ out h; simp [exit1] at h
    · intro config targets resolvers randCities checkInfos' cdnData checkResults'
        h1 _ _ _ _ _ _ h8 out h
      simp only [Option.some.injEq] at h
      exact ⟨config, checkInfos', cdnData, checkResults', h1, h8, h.symm⟩

/-- C7 at concrete runs with the levels "QUIET", "Detail" and "default". -/
theorem selectOutput_by_level_witness :
    (main (demoWorld "198.51.100.7" "QUIET" true true)).output =
      some (.noCDNs ["198.51.100.7"], "sys", "") ∧
    (main (demoWorld "198.51.100.7" "Detail" true true)).output =
      some (.detail ["198.51.100.7", "198.51.100.7"], "sys", "") ∧
    (main (demoWorld "198.51.100.7" "default" true true)).output =
      some (.results ["198.51.100.7"], "sys", "") ∧
    selectOutput (demoWorld "198.51.100.7" "default" true true) "default" [] ["x"] =
      .results ["x"] :=
  ⟨by decide, by decide, by decide,
    (selectOutput_by_level (demoWorld "198.51.100.7" "default" true true) "default" [] ["x"]).2.2.1
      (by decide) (by decide)⟩

/-! ## Fatal errors and the order of the steps -/

/-- C4, as stated, fails: in the run with targets `198.51.100.7,www.example.org`
in which the database engines cannot be opened, the DNS probing step has been
executed when the run ends. -/
theorem init_failure_after_probing_counterexample :
    ¬ (DBInitFails (demoWorld "198.51.100.7,www.example.org" "default" false true) ∨
        SourceLoadFails (demoWorld "198.51.100.7,www.example.org" "default" false true) →
      AbortsBeforeProbing (demoWorld "198.51.100.7,www.example.org" "default" false true)) := by
  intro h
  have h' := h (Or.inl ⟨demoConfig "198.51.100.7,www.example.org" "default", _, rfl, rfl⟩)
  exact h'.2 (by decide)

/-- C4, amended: if the database engines fail to open for the database
configuration of the run, or the fingerprint dataset fails to load from the
configured `source.json`, the run ends with a non-zero status, hands nothing to
the output sink and has not run the classification `CheckCDNBatch`; the DNS
probing step is not held back by these errors: in every run it comes before the
opening of the engines and before the reading of `source.json`. -/
theorem init_failure_aborts_before_classification (w : World DR Loc Asn Rest CR Q D Eng)
    (h : DBInitFails w ∨ SourceLoadFails w) :
    (main w).exitCode ≠ 0 ∧ (main w).output = none ∧
    Event.checkCDNBatch ∉ (main w).trace ∧ Event.writeOutput ∉ (main w).trace ∧
    (Event.initDBEngines ∈ (main w).trace →
      List.Sublist [Event.dnsProcess, Event.initDBEngines] (main w).trace) ∧
    (Event.readSourceJson ∈ (main w).trace →
      List.Sublist [Event.dnsProcess, Event.readSourceJson] (main w).trace) := by
  have hno : ∀ config cdnData checkInfos out, w.Parse = .ok config →
      queryIPInfo w (mkIpDbConfig config) checkInfos = some out →
      w.ReadJsonToStruct config.SourceJson NewEmptyCDNData = .ok cdnData → False := by
    intro config cdnData checkInfos out hp hq hr
    rcases h with ⟨config', err, hp', herr⟩ | ⟨config', err, hp', herr⟩
    · rw [hp] at hp'
      cases hp'
      obtain ⟨eng, heng⟩ := queryIPInfo_eq_some w _ checkInfos out hq
      rw [herr] at heng
      cases heng
    · rw [hp] at hp'
      cases hp'
      rw [herr] at hr
      cases hr
  refine main_cases w
    (fun r => r.exitCode ≠ 0 ∧ r.output = none ∧
      Event.checkCDNBatch ∉ r.trace ∧ Event.writeOutput ∉ r.trace ∧
      (Event.initDBEngines ∈ r.trace →
        List.Sublist [Event.dnsProcess, Event.initDBEngines] r.trace) ∧
      (Event.readSourceJson ∈ r.trace →
        List.Sublist [Event.dnsProcess, Event.readSourceJson] r.trace)) ?_ ?_ ?_ ?_ ?_ ?_ ?_ ?_ ?_
  · intro _ _; simp [exit1]
  · intro _ _ _; simp [exit1]
  · intro _ _ _ _ _; simp [exit1]
  · intro _ _ _ _ _ _ _; simp [exit1]
  · intro _ _ _ _ _ _ _ _ _; simp [exit1]
  · intro _ _ _ _ _ _ _ _ _ _
    refine ⟨by simp [exit1], by simp [exit1], by simp [exit1], by simp [exit1], ?_, ?_⟩
    · intro _; simp only [exit1]; decide
    · intro hm; simp [exit1] at hm
  · intro _ _ _ _ _ _ _ _ _ _ _ _ _
    refine ⟨by simp [exit1], by simp [exit1], by simp [exit1], by simp [exit1], ?_, ?_⟩
    · intro _; simp only [exit1]; decide
    · intro _; simp only [exit1]; decide
  · intro _ _ _ _ _ _ _ h1 _ _ _ _ h6 h7 _
    exact (hno _ _ _ _ h1 h6 h7).elim
  · intro _ _ _ _ _ _ _ h1 _ _ _ _ h6 h7 _
    exact (hno _ _ _ _ h1 h6 h7).elim

/-- C4, amended, at two concrete runs: one in which the database engines cannot
be opened, one in which `source.json` cannot be read.  Both end with status 1
and without classification, and both have run the DNS probing step. -/
theorem init_failure_aborts_before_classification_witness :
    (DBInitFails (demoWorld "198.51.100.7,www.example.org" "default" false true) ∧
      (main (demoWorld "198.51.100.7,www.example.org" "default" false true)).exitCode ≠ 0 ∧
      Event.checkCDNBatch ∉
        (main (demoWorld "198.51.100.7,www.example.org" "default" false true)).trace ∧
      (main (demoWorld "198.51.100.7,www.example.org" "default" false true)).trace =
        [Event.parseFlags, Event.loadTargets, Event.classifyTargets, Event.loadResolvers,
          Event.loadCityMap, Event.dnsProcess, Event.initDBEngines]) ∧
    (SourceLoadFails (demoWorld "198.51.100.7,www.example.org" "default" true false) ∧
      (main (demoWorld "198.51.100.7,www.example.org" "default" true false)).exitCode ≠ 0 ∧
      Event.checkCDNBatch ∉
        (main (demoWorld "198.51.100.7,www.example.org" "default" true false)).trace ∧
      List.Sublist [Event.dnsProcess, Event.readSourceJson]
        (main (demoWorld "198.51.100.7,www.example.org" "default" true false)).trace) :=
  have hf : DBInitFails (demoWorld "198.51.100.7,www.example.org" "default" false true) :=
    ⟨demoConfig "198.51.100.7,www.example.org" "default", _, rfl, rfl⟩
  have hs : SourceLoadFails (demoWorld "198.51.100.7,www.example.org" "default" true false) :=
    ⟨demoConfig "198.51.100.7,www.example.org" "default", _, rfl, rfl⟩
  have h := init_failure_aborts_before_classification
    (demoWorld "198.51.100.7,www.example.org" "default" false true) (Or.inl hf)
  have h' := init_failure_aborts_before_classification
    (demoWorld "198.51.100.7,www.example.org" "default" true false) (Or.inr hs)
  ⟨⟨hf, h.1, h.2.2.1, by decide⟩, ⟨hs, h'.1, h'.2.2.1, h'.2.2.2.2.2 (by decide)⟩⟩

/-! ## Runs without a valid target -/

theorem mergedCheckInfos_eq (w : World DR Loc Asn Rest CR Q D Eng) (dnsConfig : DNSQueryConfig)
    (classifier : Classifier) :
    mergedCheckInfos w dnsConfig classifier =
      classifier.DomainEntries.map
          (domainCheckInfo w (w.Process dnsConfig classifier.DomainEntries)) ++
        classifier.IPEntries.map (ipCheckInfo w) := by
  unfold mergedCheckInfos
  simp only [foldl_append_singleton, queryDomainInfo_eq_map]

/-- C5, as stated, fails: the run with the target argument `,` has no valid
target (both items are empty strings), loads the resolvers, runs every later
step and ends with status 0. -/
theorem no_valid_targets_counterexample :
    ¬ (NoValidTargets (demoWorld "," "default" true true) →
      AbortsBeforeResolvers (demoWorld "," "default" true true)) := by
  intro h
  have h' := h ⟨demoConfig "," "default", ["", ""], rfl, rfl, by decide, by decide⟩
  exact h'.1 (by decide)

/-- C5, amended: a run whose target argument is the empty string is aborted
with a non-zero status right after the help text is written, before the
resolvers are loaded and before DNS probing, IP enrichment and classification;
a run whose target argument is not empty is not aborted for want of a valid
target: once the target list is obtained the resolvers are loaded whatever the
classifier yields, and when it yields no IP entry and no domain entry the merged
list is empty. -/
theorem empty_target_aborts (w : World DR Loc Asn Rest CR Q D Eng) (config : Config)
    (hparse : w.Parse = .ok config) :
    (config.Target = "" →
      AbortsBeforeResolvers w ∧ (main w).trace = [Event.parseFlags, Event.writeHelp]) ∧
    (config.Target ≠ "" → ∀ targets, loadTargets w config = .ok targets →
      Event.loadResolvers ∈ (main w).trace ∧
      ((ClassifyTargets w.classifyOne targets).IPEntries = [] →
        (ClassifyTargets w.classifyOne targets).DomainEntries = [] →
        ∀ dnsConfig,
          mergedCheckInfos w dnsConfig (ClassifyTargets w.classifyOne targets) = [])) := by
  refine ⟨?_, ?_⟩
  · intro ht
    have hm : main w = exit1 [Event.parseFlags, Event.writeHelp] := by
      simp [main, hparse, ht]
    rw [AbortsBeforeResolvers, hm]
    simp [exit1]
  · intro ht targets hl
    refine ⟨?_, ?_⟩
    · refine main_cases w (fun r => Event.loadResolvers ∈ r.trace) ?_ ?_ ?_ ?_ ?_ ?_ ?_ ?_ ?_
      · intro err h1
        rw [hparse] at h1
        cases h1
      · intro c h1 h2
        rw [hparse] at h1
        cases h1
        exact absurd h2 ht
      · intro c err h1 _ h3
        rw [hparse] at h1
        cases h1
        rw [hl] at h3
        cases h3
      · intro _ _ _ _ _ _ _; simp [exit1]
      · intro _ _ _ _ _ _ _ _ _; simp [exit1]
      · intro _ _ _ _ _ _ _ _ _ _; simp [exit1]
      · intro _ _ _ _ _ _ _ _ _ _ _ _ _; simp [exit1]
      · intro _ _ _ _ _ _ _ _ _ _ _ _ _ _ _; simp [exit1]
      · intro _ _ _ _ _ _ _ _ _ _ _ _ _ _ _; simp
    · intro hip hdom dnsConfig
      rw [mergedCheckInfos_eq, hip, hdom]
      rfl

/-- C5, amended, at concrete runs: the empty target argument, and the argument
`,`. -/
theorem empty_target_aborts_witness :
    (AbortsBeforeResolvers (demoWorld "" "default" true true) ∧
      (main (demoWorld "" "default" true true)).trace = [Event.parseFlags, Event.writeHelp]) ∧
    Event.loadResolvers ∈ (main (demoWorld "," "default" true true)).trace :=
  ⟨(empty_target_aborts (demoWorld "" "default" true true) (demoConfig "" "default") rfl).1
      (by decide),
    ((empty_target_aborts (demoWorld "," "default" true true) (demoConfig "," "default") rfl).2
      (by decide) ["", ""] rfl).1⟩

/-! ## Order of the merged list -/

theorem pair_sublist_of_getElem? {α : Type} {l : List α} {i j : Nat} {a b : α}
    (hij : i < j) (hi : l[i]? = some a) (hj : l[j]? = some b) : List.Sublist [a, b] l := by
  induction l generalizing i j with
  | nil => simp at hi
  | cons x l ih =>
    cases j with
    | zero => omega
    | succ j =>
      simp only [List.getElem?_cons_succ] at hj
      cases i with
      | zero =>
        simp only [List.getElem?_cons_zero, Option.some.injEq] at hi
        subst hi
        have hb : b ∈ l := List.getElem?_mem hj
        exact (List.singleton_sublist.mpr hb).cons₂ _
      | succ i =>
        simp only [List.getElem?_cons_succ] at hi
        exact (ih (by omega) hi hj).cons _

theorem singleton_sublist_of_getElem? {α : Type} {l : List α} {i : Nat} {a : α}
    (hi : l[i]? = some a) : List.Sublist [a] l :=
  List.singleton_sublist.mpr (List.getElem?_mem hi)

theorem bucket_sublist (k : TargetKind) (classifyOne : String → TargetKind × TargetEntry)
    {ts targets : List String} (h : List.Sublist ts targets)
    (hk : ∀ t ∈ ts, (classifyOne t).1 = k) :
    List.Sublist (ts.map (fun t => (classifyOne t).2)) (bucket k (targets.map classifyOne)) := by
  have h1 : List.Sublist (bucket k (ts.map classifyOne)) (bucket k (targets.map classifyOne)) :=
    (h.map classifyOne).filterMap _
  have h2 : bucket k (ts.map classifyOne) = ts.map (fun t => (classifyOne t).2) := by
    clear h h1
    induction ts with
    | nil => rfl
    | cons t ts ih =>
      have ht : (classifyOne t).1 = k := hk t (List.mem_cons_self _ _)
      have ih' := ih (fun t' ht' => hk t' (List.mem_cons_of_mem _ ht'))
      simp only [bucket, List.map_cons, List.filterMap_cons, ht, if_true] at ih' ⊢
      rw [ih']
  rw [← h2]
  exact h1

/-- C3, as stated, fails: for the targets `198.51.100.7`, `www.example.org` the
merged list holds the record of the domain first and the record of the IP
literal second. -/
theorem merged_order_counterexample :
    ¬ PreservesTargetOrder (demoWorld "198.51.100.7,www.example.org" "default" true true)
        (mkDNSConfig (demoConfig "198.51.100.7,www.example.org" "default") ["192.0.2.53"] [])
        ["198.51.100.7", "www.example.org"] := by
  intro h
  have h' := h 0 1 "198.51.100.7" "www.example.org" _ _ (by decide) rfl rfl rfl rfl
  revert h'
  decide

theorem bucket_eq_filter_map (k : TargetKind) (classifyOne : String → TargetKind × TargetEntry)
    (targets : List String) :
    bucket k (targets.map classifyOne) =
      (targets.filter (fun t => decide ((classifyOne t).1 = k))).map
        (fun t => (classifyOne t).2) := by
  induction targets with
  | nil => rfl
  | cons t ts ih =>
    simp only [bucket, List.map_cons, List.filterMap_cons] at ih ⊢
    by_cases h : (classifyOne t).1 = k
    · simp [h, ih]
    · simp [h, ih]

/-- C3, amended: the merged list is exactly the records of the domain targets,
in input order, followed by the records of the IP targets, in input order.
Hence, for two targets at positions i < j: when both are domains, or both are
IP literals, the record of the earlier one comes before the record of the later
one; when one is a domain and the other an IP literal, the record of the domain
comes first, whichever of the two was given first. -/
theorem merged_order_within_kind (w : World DR Loc Asn Rest CR Q D Eng)
    (dnsConfig : DNSQueryConfig) (targets : List String) :
    mergedCheckInfos w dnsConfig (ClassifyTargets w.classifyOne targets) =
      (targets.filter (fun t => decide ((w.classifyOne t).1 = .domain))).map
          (fun t => domainCheckInfo w
            (w.Process dnsConfig (ClassifyTargets w.classifyOne targets).DomainEntries)
            (w.classifyOne t).2) ++
        (targets.filter (fun t => decide ((w.classifyOne t).1 = .ip))).map
          (fun t => ipCheckInfo w (w.classifyOne t).2) ∧
    ∀ (i j : Nat) (ti tj : String), i < j → targets[i]? = some ti → targets[j]? = some tj →
      ((w.classifyOne ti).1 = .domain → (w.classifyOne tj).1 = .domain →
        List.Sublist
          [domainCheckInfo w
              (w.Process dnsConfig (ClassifyTargets w.classifyOne targets).DomainEntries)
              (w.classifyOne ti).2,
            domainCheckInfo w
              (w.Process dnsConfig (ClassifyTargets w.classifyOne targets).DomainEntries)
              (w.classifyOne tj).2]
          (mergedCheckInfos w dnsConfig (ClassifyTargets w.classifyOne targets))) ∧
      ((w.classifyOne ti).1 = .ip → (w.classifyOne tj).1 = .ip →
        List.Sublist [ipCheckInfo w (w.classifyOne ti).2, ipCheckInfo w (w.classifyOne tj).2]
          (mergedCheckInfos w dnsConfig (ClassifyTargets w.classifyOne targets))) ∧
      ((w.classifyOne ti).1 = .domain → (w.classifyOne tj).1 = .ip →
        List.Sublist
          [domainCheckInfo w
              (w.Process dnsConfig (ClassifyTargets w.classifyOne targets).DomainEntries)
              (w.classifyOne ti).2,
            ipCheckInfo w (w.classifyOne tj).2]
          (mergedCheckInfos w dnsConfig (ClassifyTargets w.classifyOne targets))) ∧
      ((w.classifyOne ti).1 = .ip → (w.classifyOne tj).1 = .domain →
        List.Sublist
          [domainCheckInfo w
              (w.Process dnsConfig (ClassifyTargets w.classifyOne targets).DomainEntries)
              (w.classifyOne tj).2,
            ipCheckInfo w (w.classifyOne ti).2]
          (mergedCheckInfos w dnsConfig (ClassifyTargets w.classifyOne targets))) := by
  refine ⟨?_, ?_⟩
  · rw [mergedCheckInfos_eq]
    show List.map _ (bucket .domain (targets.map w.classifyOne)) ++
      List.map _ (bucket .ip (targets.map w.classifyOne)) = _
    rw [bucket_eq_filter_map, bucket_eq_filter_map, List.map_map, List.map_map]
    rfl
  intro i j ti tj hij hi hj
  have hpair : List.Sublist [ti, tj] targets := pair_sublist_of_getElem? hij hi hj
  have hsi : List.Sublist [ti] targets := singleton_sublist_of_getElem? hi
  have hsj : List.Sublist [tj] targets := singleton_sublist_of_getElem? hj
  rw [mergedCheckInfos_eq]
  refine ⟨?_, ?_, ?_, ?_⟩
  · intro hdi hdj
    have hb := bucket_sublist .domain w.classifyOne hpair (by
      intro t ht
      simp only [List.mem_cons, List.mem_singleton, List.not_mem_nil, or_false] at ht
      rcases ht with rfl | rfl
      · exact hdi
      · exact hdj)
    exact List.sublist_append_of_sublist_left (hb.map _)
  · intro hdi hdj
    have hb := bucket_sublist .ip w.classifyOne hpair (by
      intro t ht
      simp only [List.mem_cons, List.mem_singleton, List.not_mem_nil, or_false] at ht
      rcases ht with rfl | rfl
      · exact hdi
      · exact hdj)
    exact List.sublist_append_of_sublist_right (hb.map _)
  · intro hdi hdj
    have hbi := bucket_sublist .domain w.classifyOne hsi (by
      intro t ht
      simp only [List.mem_singleton] at ht
      subst ht
      exact hdi)
    have hbj := bucket_sublist .ip w.classifyOne hsj (by
      intro t ht
      simp only [List.mem_singleton] at ht
      subst ht
      exact hdj)
    exact (hbi.map _).append (hbj.map _)
  · intro hdi hdj
    have hbi := bucket_sublist .ip w.classifyOne hsi (by
      intro t ht
      simp only [List.mem_singleton] at ht
      subst ht
      exact hdi)
    have hbj := bucket_sublist .domain w.classifyOne hsj (by
      intro t ht
      simp only [List.mem_singleton] at ht
      subst ht
      exact hdj)
    exact (hbj.map _).append (hbi.map _)

/-- C3, amended, at the targets `198.51.100.7`, `www.example.org`: the merged
list is exactly the record of the domain (given second) followed by the record
of the IP literal (given first). -/
theorem merged_order_within_kind_witness :
    mergedCheckInfos (demoWorld "198.51.100.7,www.example.org" "default" true true)
        (mkDNSConfig (demoConfig "198.51.100.7,www.example.org" "default") ["192.0.2.53"] [])
        (ClassifyTargets demoClassifyOne ["198.51.100.7", "www.example.org"]) =
      [{ A := [], AAAA := [], Ipv4Locate := "", Ipv4Asn := "", Ipv6Locate := "", Ipv6Asn := "",
         rest := { RAW := "www.example.org", FMT := "www.example.org", IsIPv4 := false,
                   FromUrl := false } },
       { A := ["198.51.100.7"], AAAA := [], Ipv4Locate := "", Ipv4Asn := "", Ipv6Locate := "",
         Ipv6Asn := "",
         rest := { RAW := "198.51.100.7", FMT := "198.51.100.7", IsIPv4 := true,
                   FromUrl := false } }] ∧
    List.Sublist
      [domainCheckInfo (demoWorld "198.51.100.7,www.example.org" "default" true true)
          ((demoWorld "198.51.100.7,www.example.org" "default" true true).Process
            (mkDNSConfig (demoConfig "198.51.100.7,www.example.org" "default") ["192.0.2.53"] [])
            (ClassifyTargets demoClassifyOne ["198.51.100.7", "www.example.org"]).DomainEntries)
          (demoClassifyOne "www.example.org").2,
        ipCheckInfo (demoWorld "198.51.100.7,www.example.org" "default" true true)
          (demoClassifyOne "198.51.100.7").2]
      (mergedCheckInfos (demoWorld "198.51.100.7,www.example.org" "default" true true)
        (mkDNSConfig (demoConfig "198.51.100.7,www.example.org" "default") ["192.0.2.53"] [])
        (ClassifyTargets demoClassifyOne ["198.51.100.7", "www.example.org"])) :=
  ⟨(merged_order_within_kind (demoWorld "198.51.100.7,www.example.org" "default" true true)
      (mkDNSConfig (demoConfig "198.51.100.7,www.example.org" "default") ["192.0.2.53"] [])
      ["198.51.100.7", "www.example.org"]).1.trans (by decide),
    ((merged_order_within_kind (demoWorld "198.51.100.7,www.example.org" "default" true true)
      (mkDNSConfig (demoConfig "198.51.100.7,www.example.org" "default") ["192.0.2.53"] [])
      ["198.51.100.7", "www.example.org"]).2 0 1 "198.51.100.7" "www.example.org"
      (by decide) rfl rfl).2.2.2 (by decide) (by decide)⟩

end PipelineFacts

end CdnCheck
